import Mathlib

/-!
# Verification of the Variant Generation Pipeline

A shallow embedding of the core pipeline of `src/backend/app.py` and
`src/backend/main.py` (the two near-identical Flask modules): theme/palette
selection, the response parser helpers, the JSON repair chain, the batch
orchestrator of `generate_replicas`, and the token ledger.

Python strings are modelled as `List Char` (`Str`); Python `None`-able values
as `Option`; code that raises as `Except`/`Option`.  External collaborators
(the OpenAI invocation, the structured-response parse outcome, `uuid.uuid4`,
`random.shuffle`) are oracle parameters: the batch claims quantify over every
pattern of their behaviour.
-/

namespace WebReplicas

/-- Python `str` modelled as a list of unicode code points. -/
abbrev Str := List Char

/-- The `{` character (written via its code point). -/
def lbraceC : Char := Char.ofNat 123

/-- The `}` character (written via its code point). -/
def rbraceC : Char := Char.ofNat 125

/-- ASCII whitespace, the characters Python's `str.strip()` / regex `\s`
remove on the inputs this code handles. -/
def isPySpace (c : Char) : Bool :=
  c = ' ' || c = '\t' || c = '\n' || c = '\r' || c = Char.ofNat 11 || c = Char.ofNat 12

/-- Python `str.lstrip()`. -/
def pyLstrip (s : Str) : Str := s.dropWhile isPySpace

/-- Python `str.rstrip()`. -/
def pyRstrip (s : Str) : Str := (s.reverse.dropWhile isPySpace).reverse

/-- Python `str.strip()`. -/
def pyStrip (s : Str) : Str := pyRstrip (pyLstrip s)

/-- Python slice `s[a:b]` (for `0 ≤ a`, `0 ≤ b`). -/
def pySlice (s : Str) (a b : Nat) : Str := (s.drop a).take (b - a)

/-- One left-to-right, non-overlapping substitution pass, the shared driver for
Python `str.replace` and the `re.sub` calls of the source.  `m s` returns
`some (rep, extra)` when a (necessarily non-empty) match of length
`extra + 1` starts at the head of `s`, to be replaced by `rep`; scanning
resumes after the match.  `fuel` bounds recursion; `fuel = s.length` always
suffices since every step consumes at least one character. -/
def reSubGo (m : Str → Option (Str × Nat)) : Nat → Str → Str
  | 0, s => s
  | _ + 1, [] => []
  | fuel + 1, c :: cs =>
    match m (c :: cs) with
    | some (rep, extra) => rep ++ reSubGo m fuel (cs.drop extra)
    | none => c :: reSubGo m fuel cs

/-- Global regex-style substitution over a whole string. -/
def reSub (m : Str → Option (Str × Nat)) (s : Str) : Str := reSubGo m s.length s

/-- Python `s.replace(pat, rep)` for non-empty `pat` (all occurrences,
left to right). -/
def replaceAll (pat rep : Str) (s : Str) : Str :=
  reSub (fun t => if pat ≠ [] ∧ pat.isPrefixOf t then some (rep, pat.length - 1) else none) s

/-- Decimal digits of a natural number, via `Nat.toDigits`, modelling Python
string interpolation of an `int`. -/
def natStr (n : Nat) : Str := Nat.toDigits 10 n

/-! ## Token ledger (`update_token_usage` / `reset_session_tokens`, app.py 69-92)

The SQLite row for session `'main'` is modelled as the pair of its two
counters; the `UPDATE` statements become pure state transformers. -/

/-- The persistent token counters of the `token_usage` row. -/
structure TokenLedger where
  session_tokens : Int
  total_tokens : Int
deriving DecidableEq, Repr

/-- Python `update_token_usage(session_tokens_increment, total_tokens_increment)`:
adds each increment to its counter (app.py lines 69-80). -/
def update_token_usage (sessionInc totalInc : Int) (st : TokenLedger) : TokenLedger :=
  { session_tokens := st.session_tokens + sessionInc
    total_tokens := st.total_tokens + totalInc }

/-- Python `reset_session_tokens()`: zeroes the session counter only
(app.py lines 82-92). -/
def reset_session_tokens (st : TokenLedger) : TokenLedger :=
  { st with session_tokens := 0 }

/-- The ledger update `generate_replicas` performs after a batch:
`update_token_usage(total_request_tokens, total_request_tokens)`
(app.py line 938) — the same delta to both counters. -/
def recordBatchTokens (total_request_tokens : Int) (st : TokenLedger) : TokenLedger :=
  update_token_usage total_request_tokens total_request_tokens st

/-! ## Theme selection (app.py 689-703, main.py 542-556) -/

/-- app.py: `theme_index = (i - 1) % len(shuffled_themes);`
`selected_theme = shuffled_themes[theme_index]` — the unit's theme comes from
the shuffled copy of the pool. -/
def selectedThemeApp (shuffled_themes : List Str) (i : Nat) : Str :=
  shuffled_themes.getD ((i - 1) % shuffled_themes.length) []

/-- main.py: `theme_index = (i - 1) % len(themes);`
`selected_theme = themes[theme_index]` — the unit's theme comes from the
ORIGINAL pool; the `shuffled_themes` list computed just above (main.py 544-545)
is never read, which the second argument records. -/
def selectedThemeMain (themes : List Str) (_shuffled_themes : List Str) (i : Nat) : Str :=
  themes.getD ((i - 1) % themes.length) []

/-- The `theme_suffix` derivation (app.py 703 / main.py 556):
`selected_theme.lower().replace(' ', '-').replace('store', '')`
`.replace('shop', '').replace('manager', '').strip('-')`.
`Char.toLower` only lower-cases ASCII letters, which agrees with Python
`str.lower()` on every label of the pool (the only non-ASCII characters in the
pool, `é` and `’`, are unchanged by Python's `lower`). -/
def themeSuffix (selected_theme : Str) : Str :=
  let s1 := selected_theme.map Char.toLower
  let s2 := replaceAll (" ".toList) ("-".toList) s1
  let s3 := replaceAll ("store".toList) [] s2
  let s4 := replaceAll ("shop".toList) [] s3
  let s5 := replaceAll ("manager".toList) [] s4
  ((s5.dropWhile (· = '-')).reverse.dropWhile (· = '-')).reverse

/-- The theme pool of `generate_replicas` (app.py 563-688; main.py 414-539 is
the identical list). -/
def themeNames : List String := [
  "Coffee Shop Manager", "Pizza Restaurant", "Bakery Counter", "Grocery Store",
  "Bookstore Inventory", "Game Store", "Electronics Shop", "Fashion Boutique",
  "Pet Store Manager", "Flower Shop", "Music Store", "Art Gallery",
  "Sports Equipment", "Candy Store", "Toy Shop", "Pharmacy Counter",
  "Hardware Store", "Car Rental", "Hotel Booking", "Travel Agency",
  "Fitness Gym", "Restaurant Menu", "Library System", "Movie Theater",
  "School Supplies", "Photography Studio", "Beauty Salon", "Laundromat",
  "Ice Cream Parlor", "Juice Bar", "Bike Rental", "Camping Gear",
  "Wedding Planner", "Food Truck", "Antique Shop", "Craft Store",
  "Supermarket Chain", "Farmers Market", "Butcher Shop", "Seafood Market",
  "Book Café", "Tattoo Studio", "Barbershop", "Nail Salon",
  "Daycare Center", "E-learning Platform", "Music Academy", "Dance Studio",
  "Driving School", "Language School", "Martial Arts Dojo", "Cooking Class",
  "Event Venue", "Conference Center", "Coworking Space", "Startup Incubator",
  "Real Estate Agency", "Property Rental", "Interior Design Studio", "Furniture Store",
  "Home Decor Shop", "Lighting Store", "Appliance Store", "Mattress Shop",
  "Garden Center", "Plant Nursery", "Organic Store", "Wine Shop",
  "Brewery Taproom", "Sports Bar", "Nightclub Manager", "Concert Hall",
  "Theater Playhouse", "Amusement Park", "Zoo Management", "Aquarium Center",
  "Theme Park", "Arcade Center", "Escape Room", "Bowling Alley",
  "Skating Rink", "Golf Course", "Tennis Club", "Soccer Academy",
  "Hospital Management", "Clinic Reception", "Dental Office", "Veterinary Clinic",
  "Pharmaceutical Store", "Optical Shop", "Hearing Aid Center", "Rehab Center",
  "Courier Service", "Logistics Hub", "Airline Booking", "Shipping Company",
  "Taxi Service", "Ride Sharing", "Parking Garage", "Fuel Station",
  "Tech Repair Shop", "Mobile Store", "Laptop Store", "Watch Boutique",
  "Jewelry Store", "Perfume Shop", "Handbag Boutique", "Shoe Store",
  "Surf Shop", "Diving Center", "Ski Resort", "Snowboard Shop",
  "Mountain Guide", "Hiking Supplies", "Fishing Store", "Hunting Shop",
  "Board Game Café", "VR Arcade", "Esports Arena", "Streaming Studio",
  "Podcast Studio", "Radio Station", "TV Channel Manager", "Film Production",
  "Animation Studio", "Advertising Agency", "Consulting Firm", "HR Platform",
  "Payroll Service", "Law Firm", "Notary Office", "Insurance Agency",
  "Bank Branch", "Stock Brokerage", "Investment Firm", "Cryptocurrency Exchange",
  "Charity Organization", "NGO Manager", "Volunteer Center", "Community Center",
  "Religious Organization", "Church Management", "Mosque Administration", "Temple Management",
  "Resort Manager", "Holiday Park", "Hostel Manager", "Bed and Breakfast",
  "Vacation Rentals", "Timeshare Service", "RV Rental", "Yacht Rental",
  "Cruise Line", "Train Service", "Metro Station", "Bus Depot",
  "Trucking Company", "Warehousing Hub", "Cold Storage", "Freight Forwarding",
  "Drone Delivery", "Postal Service", "Bike Courier", "Farmland Manager",
  "Dairy Farm", "Poultry Farm", "Fishery Farm", "Aquaponics Farm",
  "Greenhouse Farming", "Hydroponics Farm", "Crop Trading", "Fertilizer Shop",
  "Seed Store", "Tractor Rental", "Mining Operations", "Oil Refinery",
  "Solar Energy Plant", "Wind Farm", "Hydropower Plant", "Recycling Plant",
  "Construction Firm", "Architecture Studio", "Cement Factory", "Steel Plant",
  "Clothing Store", "Streetwear Shop", "Sports Apparel", "Tailor Shop",
  "Textile Factory", "Leather Goods", "Accessories Store", "Cap Store",
  "Restaurant Chain", "Buffet Restaurant", "Fine Dining", "Fast Food Outlet",
  "Burger Joint", "Sandwich Shop", "Steakhouse", "Seafood Restaurant",
  "Vegan Café", "Salad Bar", "Soup Kitchen", "Catering Service",
  "Ramen Shop", "Sushi Bar", "Dim Sum Place", "Mexican Cantina",
  "French Bistro", "Greek Taverna", "Turkish Kebab Shop", "Caribbean Restaurant",
  "Cupcake Store", "Donut Shop", "Chocolate Boutique", "Crepe Stand",
  "Pancake House", "Waffle Bar", "Coffee Roastery", "Bubble Tea Shop",
  "Gaming Café", "Internet Café", "Makerspace", "Electronics Repair",
  "Drone Store", "Smart Home Store", "AR Experience Center", "Tech Museum",
  "Airport Duty Free", "Railway Station Shop", "Pop-Up Shop", "Music Festival Manager",
  "Conference Organizer", "Sports League Manager", "Basketball Team", "Baseball Team",
  "Football Club", "Olympics Committee", "Circus Show", "Comedy Club",
  "Medical Research Lab", "Biotech Startup", "Pharma Manufacturing", "Health Insurance",
  "Yoga Studio", "Meditation Center", "Spa Resort", "Ayurveda Clinic",
  "News Agency", "Book Publisher", "Printing Press", "Stationery Shop",
  "Souvenir Shop", "Gift Wrapping Service", "Party Supplies", "Costume Rental",
  "Photo Booth", "DJ Service", "Karaoke Bar", "Open Mic Café",
  "Software Company", "Web Design Agency", "Game Development Studio", "Cloud Hosting",
  "Robotics Startup", "IoT Platform", "Blockchain Startup", "Metaverse Hub",
  "Wildlife Sanctuary", "National Park", "Botanical Garden", "Heritage Site",
  "Science Center", "Planetarium", "Space Observatory", "Rocket Launch Center",
  "City Hall", "Post Office", "Police Department", "Fire Department",
  "Ambulance Service", "Disaster Relief", "Customs Office", "Immigration Service",
  "Military Base", "Airport Security", "Playground", "Water Park",
  "Laser Tag Arena", "Go-Kart Track", "Horse Riding School", "Animal Shelter",
  "Dog Grooming", "Cat Café", "Elder Care Home", "Retirement Community",
  "Boarding School", "University Campus", "Student Housing", "Scholarship Fund",
  "Exam Prep Center", "Research Institute", "IT Training Center", "Coding Bootcamp",
  "Virtual Classroom", "MOOC Platform", "Job Portal", "Freelance Marketplace",
  "Gig Economy Platform", "Remote Work Hub", "Interior Landscaping", "Pool Maintenance",
  "Roofing Company", "Home Renovation", "Carpentry Workshop", "Plumbing Services",
  "Electrical Services", "Solar Installer", "Moving Company", "Cleaning Services",
  "Pest Control", "Security Services", "CCTV Store", "Alarm Installation",
  "Locksmith Services", "Smart Security Hub", "Baby Store", "Maternity Shop",
  "Toy Rental", "Kids Party Planner", "Children’s Bookstore", "Comic Convention",
  "Cosplay Shop", "Boarding Kennel", "Pet Daycare", "Pet Hotel",
  "Exotic Pet Store", "Aquarium Fish Shop", "Bird Store", "Reptile Shop",
  "Pet Grooming School", "Dog Training Center", "Organic Bakery", "Gluten-Free Store",
  "Keto Café", "Protein Bar", "Smoothie Shop", "Vegan Market",
  "Ethnic Grocery", "Spice Shop", "Olive Oil Shop", "Cheese Store",
  "Butcher Deli", "Farm-to-Table Restaurant", "Artisan Coffee Roaster", "Craft Brewery",
  "Whiskey Distillery", "Gin Bar", "Cigar Lounge", "Shisha Café",
  "Hookah Bar", "Wine Tasting Room", "Luxury Spa", "Thermal Baths",
  "Hot Spring Resort", "Detox Center", "Pilates Studio", "CrossFit Gym",
  "Boxing Club", "Climbing Gym", "Skateboard Shop", "Roller Rink",
  "Parkour Gym", "Adventure Park", "Drone Racing Arena", "RC Car Track",
  "Model Train Store", "LEGO Store", "3D Printing Service", "Makers Lab",
  "Prototype Studio", "Electronics Lab", "AR Gaming Arena", "Mixed Reality Studio",
  "Digital Art Gallery", "NFT Marketplace", "Crypto Mining Farm", "Token Exchange",
  "DeFi Platform", "Metaverse Land Agency", "Virtual Fashion Boutique", "VR Fitness Studio",
  "Online Casino", "Sports Betting", "Horse Racing Track", "Dog Racing Arena",
  "Lottery Kiosk", "Bingo Hall", "Community Radio", "Indie Film Studio",
  "Streaming Platform", "Music Label", "Talent Scout", "Modeling Agency",
  "Casting Studio", "Script Writing Agency", "Translation Service", "Subtitling Service",
  "Voiceover Studio", "Dubbing Studio", "Content Creation Hub", "Influencer Agency",
  "Social Media Agency", "SEO Firm", "Data Analytics Firm", "AI Consultancy",
  "ML Research Lab", "Cloud AI Service", "Drone Photography", "Aerial Mapping",
  "Survey Company", "GIS Mapping", "Real Estate Drone Tours", "Property Management",
  "Condominium Manager", "HOA Manager", "Urban Planning Firm", "Smart City Platform",
  "Transport Authority", "Highway Management", "Port Authority", "Shipyard",
  "Harbor Management", "Fisherman’s Wharf", "Luxury Car Dealer", "Used Car Dealer",
  "Motorcycle Shop", "Scooter Rental", "EV Charging Station", "EV Rental",
  "Battery Swap Station", "Green Energy Store", "Charcoal Shop", "BBQ Supplies",
  "Kitchen Equipment Store", "Cooking Oil Shop", "Packaging Supplies", "Paper Mill",
  "Printing Ink Store", "Label Printing", "Advertising Print Shop", "Merchandise Store",
  "Souvenir Kiosk", "Festival Booth", "Holiday Decor Store", "Halloween Shop",
  "Christmas Market", "Fireworks Stand", "Gift Basket Store", "Luxury Gifting Service",
  "Diamond Store", "Gemstone Boutique", "Goldsmith", "Silversmith",
  "Engraving Shop", "Watch Customization", "Vintage Car Rental", "Classic Car Restoration",
  "Motor Garage", "Auto Parts Shop", "Tire Shop", "Car Wash",
  "Detailing Center", "Tow Truck Service", "Scrapyard", "Metal Recycling",
  "E-waste Recycling", "Battery Recycling", "Eco-Friendly Products", "Zero Waste Store",
  "Thrift Shop", "Second-Hand Store", "Pawn Broker", "Consignment Store",
  "Auction House", "Art Auction", "Collector’s Shop", "Stamp Shop",
  "Coin Shop", "Antique Bookstore", "Rare Vinyl Store", "Vintage Clothing Shop",
  "Retro Arcade", "Classic Game Shop"]

/-- The theme pool as `Str` values. -/
def themesList : List Str := themeNames.map String.toList

/-- The 494 `theme_suffix` values of the pool, precomputed as literals so that
distinctness can be decided without re-running `themeSuffix` per comparison. -/
def suffixNames : List String := [
  "coffee", "pizza-restaurant", "bakery-counter", "grocery", "book-inventory",
  "game", "electronics", "fashion-boutique", "pet", "flower",
  "music", "art-gallery", "sports-equipment", "candy", "toy",
  "pharmacy-counter", "hardware", "car-rental", "hotel-booking", "travel-agency",
  "fitness-gym", "restaurant-menu", "library-system", "movie-theater", "school-supplies",
  "photography-studio", "beauty-salon", "laundromat", "ice-cream-parlor", "juice-bar",
  "bike-rental", "camping-gear", "wedding-planner", "food-truck", "antique",
  "craft", "supermarket-chain", "farmers-market", "butcher", "seafood-market",
  "book-café", "tattoo-studio", "barber", "nail-salon", "daycare-center",
  "e-learning-platform", "music-academy", "dance-studio", "driving-school", "language-school",
  "martial-arts-dojo", "cooking-class", "event-venue", "conference-center", "coworking-space",
  "startup-incubator", "real-estate-agency", "property-rental", "interior-design-studio", "furniture",
  "home-decor", "lighting", "appliance", "mattress", "garden-center",
  "plant-nursery", "organic", "wine", "brewery-taproom", "sports-bar",
  "nightclub", "concert-hall", "theater-playhouse", "amusement-park", "zoo-management",
  "aquarium-center", "theme-park", "arcade-center", "escape-room", "bowling-alley",
  "skating-rink", "golf-course", "tennis-club", "soccer-academy", "hospital-management",
  "clinic-reception", "dental-office", "veterinary-clinic", "pharmaceutical", "optical",
  "hearing-aid-center", "rehab-center", "courier-service", "logistics-hub", "airline-booking",
  "shipping-company", "taxi-service", "ride-sharing", "parking-garage", "fuel-station",
  "tech-repair", "mobile", "laptop", "watch-boutique", "jewelry",
  "perfume", "handbag-boutique", "shoe", "surf", "diving-center",
  "ski-resort", "snowboard", "mountain-guide", "hiking-supplies", "fishing",
  "hunting", "board-game-café", "vr-arcade", "esports-arena", "streaming-studio",
  "podcast-studio", "radio-station", "tv-channel", "film-production", "animation-studio",
  "advertising-agency", "consulting-firm", "hr-platform", "payroll-service", "law-firm",
  "notary-office", "insurance-agency", "bank-branch", "stock-brokerage", "investment-firm",
  "cryptocurrency-exchange", "charity-organization", "ngo", "volunteer-center", "community-center",
  "religious-organization", "church-management", "mosque-administration", "temple-management", "resort",
  "holiday-park", "hostel", "bed-and-breakfast", "vacation-rentals", "timeshare-service",
  "rv-rental", "yacht-rental", "cruise-line", "train-service", "metro-station",
  "bus-depot", "trucking-company", "warehousing-hub", "cold-storage", "freight-forwarding",
  "drone-delivery", "postal-service", "bike-courier", "farmland", "dairy-farm",
  "poultry-farm", "fishery-farm", "aquaponics-farm", "greenhouse-farming", "hydroponics-farm",
  "crop-trading", "fertilizer", "seed", "tractor-rental", "mining-operations",
  "oil-refinery", "solar-energy-plant", "wind-farm", "hydropower-plant", "recycling-plant",
  "construction-firm", "architecture-studio", "cement-factory", "steel-plant", "clothing",
  "streetwear", "sports-apparel", "tailor", "textile-factory", "leather-goods",
  "accessories", "cap", "restaurant-chain", "buffet-restaurant", "fine-dining",
  "fast-food-outlet", "burger-joint", "sandwich", "steakhouse", "seafood-restaurant",
  "vegan-café", "salad-bar", "soup-kitchen", "catering-service", "ramen",
  "sushi-bar", "dim-sum-place", "mexican-cantina", "french-bistro", "greek-taverna",
  "turkish-kebab", "caribbean-restaurant", "cupcake", "donut", "chocolate-boutique",
  "crepe-stand", "pancake-house", "waffle-bar", "coffee-roastery", "bubble-tea",
  "gaming-café", "internet-café", "makerspace", "electronics-repair", "drone",
  "smart-home", "ar-experience-center", "tech-museum", "airport-duty-free", "railway-station",
  "pop-up", "music-festival", "conference-organizer", "sports-league", "basketball-team",
  "baseball-team", "football-club", "olympics-committee", "circus-show", "comedy-club",
  "medical-research-lab", "biotech-startup", "pharma-manufacturing", "health-insurance", "yoga-studio",
  "meditation-center", "spa-resort", "ayurveda-clinic", "news-agency", "book-publisher",
  "printing-press", "stationery", "souvenir", "gift-wrapping-service", "party-supplies",
  "costume-rental", "photo-booth", "dj-service", "karaoke-bar", "open-mic-café",
  "software-company", "web-design-agency", "game-development-studio", "cloud-hosting", "robotics-startup",
  "iot-platform", "blockchain-startup", "metaverse-hub", "wildlife-sanctuary", "national-park",
  "botanical-garden", "heritage-site", "science-center", "planetarium", "space-observatory",
  "rocket-launch-center", "city-hall", "post-office", "police-department", "fire-department",
  "ambulance-service", "disaster-relief", "customs-office", "immigration-service", "military-base",
  "airport-security", "playground", "water-park", "laser-tag-arena", "go-kart-track",
  "horse-riding-school", "animal-shelter", "dog-grooming", "cat-café", "elder-care-home",
  "retirement-community", "boarding-school", "university-campus", "student-housing", "scholarship-fund",
  "exam-prep-center", "research-institute", "it-training-center", "coding-bootcamp", "virtual-classroom",
  "mooc-platform", "job-portal", "freelance-marketplace", "gig-economy-platform", "remote-work-hub",
  "interior-landscaping", "pool-maintenance", "roofing-company", "home-renovation", "carpentry-work",
  "plumbing-services", "electrical-services", "solar-installer", "moving-company", "cleaning-services",
  "pest-control", "security-services", "cctv", "alarm-installation", "locksmith-services",
  "smart-security-hub", "baby", "maternity", "toy-rental", "kids-party-planner",
  "children’s-book", "comic-convention", "cosplay", "boarding-kennel", "pet-daycare",
  "pet-hotel", "exotic-pet", "aquarium-fish", "bird", "reptile",
  "pet-grooming-school", "dog-training-center", "organic-bakery", "gluten-free", "keto-café",
  "protein-bar", "smoothie", "vegan-market", "ethnic-grocery", "spice",
  "olive-oil", "cheese", "butcher-deli", "farm-to-table-restaurant", "artisan-coffee-roaster",
  "craft-brewery", "whiskey-distillery", "gin-bar", "cigar-lounge", "shisha-café",
  "hookah-bar", "wine-tasting-room", "luxury-spa", "thermal-baths", "hot-spring-resort",
  "detox-center", "pilates-studio", "crossfit-gym", "boxing-club", "climbing-gym",
  "skateboard", "roller-rink", "parkour-gym", "adventure-park", "drone-racing-arena",
  "rc-car-track", "model-train", "lego", "3d-printing-service", "makers-lab",
  "prototype-studio", "electronics-lab", "ar-gaming-arena", "mixed-reality-studio", "digital-art-gallery",
  "nft-marketplace", "crypto-mining-farm", "token-exchange", "defi-platform", "metaverse-land-agency",
  "virtual-fashion-boutique", "vr-fitness-studio", "online-casino", "sports-betting", "horse-racing-track",
  "dog-racing-arena", "lottery-kiosk", "bingo-hall", "community-radio", "indie-film-studio",
  "streaming-platform", "music-label", "talent-scout", "modeling-agency", "casting-studio",
  "script-writing-agency", "translation-service", "subtitling-service", "voiceover-studio", "dubbing-studio",
  "content-creation-hub", "influencer-agency", "social-media-agency", "seo-firm", "data-analytics-firm",
  "ai-consultancy", "ml-research-lab", "cloud-ai-service", "drone-photography", "aerial-mapping",
  "survey-company", "gis-mapping", "real-estate-drone-tours", "property-management", "condominium",
  "hoa", "urban-planning-firm", "smart-city-platform", "transport-authority", "highway-management",
  "port-authority", "shipyard", "harbor-management", "fisherman’s-wharf", "luxury-car-dealer",
  "used-car-dealer", "motorcycle", "scooter-rental", "ev-charging-station", "ev-rental",
  "battery-swap-station", "green-energy", "charcoal", "bbq-supplies", "kitchen-equipment",
  "cooking-oil", "packaging-supplies", "paper-mill", "printing-ink", "label-printing",
  "advertising-print", "merchandise", "souvenir-kiosk", "festival-booth", "holiday-decor",
  "halloween", "christmas-market", "fireworks-stand", "gift-basket", "luxury-gifting-service",
  "diamond", "gemstone-boutique", "goldsmith", "silversmith", "engraving",
  "watch-customization", "vintage-car-rental", "classic-car-restoration", "motor-garage", "auto-parts",
  "tire", "car-wash", "detailing-center", "tow-truck-service", "scrapyard",
  "metal-recycling", "e-waste-recycling", "battery-recycling", "eco-friendly-products", "zero-waste",
  "thrift", "second-hand", "pawn-broker", "consignment", "auction-house",
  "art-auction", "collector’s", "stamp", "coin", "antique-book",
  "rare-vinyl", "vintage-clothing", "retro-arcade", "classic-game"]

/-- The precomputed suffixes as `Str` values. -/
def suffixesList : List Str := suffixNames.map String.toList

/-- A fingerprint of a string: the base-1114112 fold of its code points,
reduced modulo a Mersenne prime so the numbers stay one machine word wide.
Used only through `List.Nodup.of_map`: distinctness of fingerprints implies
distinctness of strings, with no injectivity assumption needed. -/
def encStr (s : Str) : Nat :=
  s.foldl (fun a c => (a * 1114112 + (c.toNat + 1)) % 2305843009213693951) 0

def encLits : List Nat := [
  1781094467526976547, 449287857017398334, 1881480982049033948, 875594169747301467,
  768185133039968046, 858057371200389284, 1527643370168663122, 1082853650697531822,
  140260860625013, 392038791874170398, 1771747488092094490, 1890933829891043261,
  741039234442430336, 1784126180827368404, 145225853960314, 1630810362238032564,
  122676421289231448, 292674593911698450, 2047576624747264297, 1118659195326735547,
  1849629574096934211, 120016910697433873, 249765531300475359, 635920679116358321,
  1921742900050373334, 341182162791994481, 728616287453420479, 295501750822655632,
  319005272197080247, 542068276010544677, 1376891904662586292, 375749376453429201,
  1605518605969346402, 2015742752566267435, 1890919107230359152, 2234751482351225817,
  160027112849996447, 1883565762623228489, 1340483366744415866, 1643769547656244095,
  1421645941485226774, 79044422152977460, 2234826420579018695, 276103361613342905,
  55203786746217892, 706336615543446258, 2158579341967929375, 777658015218399361,
  1747384903817091293, 1913602444477280295, 2269480066896730509, 814664501833568743,
  889767648608836856, 1780857494859098693, 1318298814348362647, 1713196048749262603,
  516904112753760063, 1275006399179643717, 2111774425467694739, 122510640884692326,
  341415689776821001, 1320873432969642432, 316163941450514819, 1974506746892613497,
  2170813644469583449, 42118313523607951, 133030646791951367, 2231665187513893037,
  906165926943700385, 766583733980150857, 1330508532520713692, 1808377271956145680,
  240154650491689206, 2205584466502400453, 1999438840952915806, 570218767815809142,
  756911505095780107, 1783761046773105331, 949985219204274972, 102707242955866631,
  697741749790541176, 1044349375819926382, 1319118996449377394, 1155013280140469666,
  580456848219187499, 80331682996688865, 495630455082592217, 1055019404074592941,
  1662941203944009603, 1972735952043564668, 1075764825143500405, 2134391303846943614,
  1967704603096201324, 1336730740538105968, 2087111328137943323, 1922201531203191880,
  500017220324457773, 790869883037035947, 1737068564950127098, 1318358269571638265,
  1442994994102770572, 861245411520865313, 1774926095204689860, 685081578976470741,
  1517761950859818141, 959293989076499044, 771439379277459369, 1311803722379034795,
  1311819858574508204, 2246751393658765552, 769647122077494980, 1044485995333266735,
  1952552968368559136, 115441557221855342, 43135654578465900, 2155603361359639115,
  833968475717891287, 2210982357174363030, 653425963772990201, 391011269079002608,
  826208987845914111, 2276946106279167587, 812441327202363995, 1938450041499325603,
  806356768899174395, 49974749886690034, 1095044042705451041, 1309458607830967775,
  125075136999054916, 689862151360379363, 291694063042295921, 554077988625105711,
  546585612443377335, 1594425019374988722, 1140133161010679878, 912648665339077238,
  2287555099810318225, 137778371756144, 991502779356028135, 402708528951500000,
  1390744877638125401, 1402245158591729419, 786246452035336691, 2044143878275417357,
  1311898018777853930, 1360174343639971721, 1311896780857926706, 843565888913858897,
  754747306937631438, 187120738628312425, 2299681427737087361, 485776379976810823,
  365511534977463442, 810833189657097818, 53145909184908534, 961103491858217540,
  933439829893805132, 714900024971710810, 1222427449408791187, 1591107194400247683,
  101630838479887669, 1621249808285599149, 2243841822195352923, 1695840066125843445,
  275277345236613771, 1098981322792973790, 1402227448033763808, 746328444490250801,
  393999448649120751, 1449315614179974236, 1712205866686179693, 720635380126405479,
  1311799998631248042, 224321449400785598, 1926561446591276834, 807176750513347511,
  274660662447255210, 2061307453789650931, 416594623236841855, 2128572524604473561,
  1085830613937730445, 2125877351248545225, 1138028475637724729, 1938150751809241028,
  488682230045692478, 271675352336287597, 1544139131018486933, 1318088233350801346,
  2209953945262069931, 772038668163404433, 1564802684848671584, 124124664037489,
  592950182861074085, 674655776882233046, 921338202606802852, 98008406973277775,
  1535820692334316181, 39366780479014618, 453554366504497624, 1168318129473142701,
  847953483112300896, 246927902533850115, 1667457647789977776, 1428222642828316511,
  1784124939592956481, 1918152545273829512, 210012621963485705, 102189336669739666,
  1626976789477909013, 1784049193593155262, 955974756897803607, 1959947951273312929,
  2169835233709135437, 391950946036071904, 1889476540095626961, 1022210380147338234,
  1725265623312687729, 1466492715992224825, 1712560067933399652, 521060604562383837,
  225768553431784992, 780717415634345905, 237449184660775769, 1507326840277123887,
  2234768859798486482, 1548817491066753788, 922752580987968339, 979969900350061577,
  605752050288769916, 1691827528226678352, 1774840944442729524, 1550282612421467541,
  2136275167648131590, 1520478616789775415, 561924031339985004, 655863536716255122,
  920170209724836675, 1015663392858079111, 2242419181411279870, 639260975553920318,
  156402955905137893, 1668826817138569380, 845058990106819709, 1399045932964851898,
  604489196891968423, 137496875695277684, 1039865331958900089, 25572380958273466,
  1819214653516662396, 143701070990414833, 1996119524589608280, 2281468453227453156,
  593525941989051246, 372612271740335686, 1459189874406175001, 1574678506140003869,
  2152953575807794493, 1046090165486631395, 2286765604766003474, 2054458420443590068,
  1375793394241355346, 1209966377650906729, 1367658596166075314, 222905659852383308,
  1533895563004334270, 2263699745766429090, 1550336500217240684, 1372102010008658023,
  312851257673381148, 529176173164196531, 642951910598044935, 1973817087690594689,
  142362368287287202, 1929665515503261649, 1752245514670257932, 1890913593177395178,
  579878575888579318, 708737807339914815, 627660865967078890, 113096560678806721,
  1044876231581487579, 1257672020867107064, 949821856380470924, 1584856416420365718,
  1363799715922773786, 918676749420360659, 1707305759059177193, 1160397367243291917,
  713762766868033961, 797914697717897438, 1908247342958646443, 1488215670595892775,
  868041970949603919, 592178171218457217, 1520757385787339927, 262933189823787611,
  1027672757685457835, 1734144891089833234, 2042330248251400259, 549994545701178557,
  217035386156288878, 466669601794611108, 1512414429635643544, 2094328534776610656,
  1906021225754086452, 1941568514422547465, 623040749310269136, 819278956015978736,
  657708019129667933, 1444879254275592151, 1227463902789588072, 724396754465581037,
  400401299199804214, 987169731477803807, 1973248335545869397, 1020117595842942779,
  896966893055809143, 1017820285826197072, 821092446597756416, 1369685904714635642,
  1049606658232360611, 133488637785911790, 2244042639022555314, 1981405881094208905,
  1451000806834414794, 276961169787143837, 861153595931951285, 2229884395587669795,
  729712988288845007, 2148951967739271759, 654169149392178370, 746059600679122010,
  1700625634740448385, 101612887740151743, 1264479508634286998, 18871759366877389,
  73493157831810505, 1250065297306542738, 861163525914165408, 1225824970675656285,
  2002025789648194865, 233415304819935104, 1371184469661891368, 2298226176782803483,
  1871000421500012586, 2102362974592537982, 1231347251650309425, 2223588894497904496,
  1316649842823504375, 1774831300377750601, 2287245643922179970, 398206665712895467,
  2088385611245680011, 968723544602961052, 611910414547166084, 2283860010629548925,
  528530987159752180, 2292528779026608683, 1692339051942455305, 1062216596587414411,
  1018930647798609324, 434514763270473087, 333630166039368068, 2060308393221880476,
  594278069416980690, 190292517270283560, 2263226873657652257, 2182337719752033508,
  264721511940385410, 925951570007049718, 1358500043910098472, 379334501726481368,
  1379595575718360701, 1181019509594386660, 368760861150162895, 1507658037219989410,
  361347561754568450, 854966111432081585, 2157235398951372822, 2123626657297687341,
  993393811677794981, 857312081586071610, 2035097783734021355, 160573600795820010,
  52483157016803731, 955121667658837043, 2126744189940154432, 320519479615982947,
  780161875248051841, 890280255940404410, 1387164958092446033, 736591260894453322,
  1345047548923672008, 978208867392220348, 1093286821771082672, 1847964618592793563,
  1333892612796087878, 1689549946554683165, 926299331000081327, 2164788756364570346,
  1255860354128877434, 1060330223559733177, 36762281726549983, 1701210478074647438,
  465891561058212731, 601763483054832996, 230188784754603820, 499111582401939746,
  1795018700166350581, 577617496153619101, 707480741847412807, 1651541272887531373,
  939488153398683730, 600325300663699230, 1502638353850999508, 900569001860666387,
  1574649260911187621, 1531850613061557528, 750655573384307511, 841210535804817641,
  1722590684855386196, 1474201510215702573, 1657312361898381367, 1851480808390727891,
  1084622820799805986, 130330907377762, 1114845228144194921, 572525556956521131,
  786080117682546976, 982493074480510902, 21746532870283951, 1693121111744077625,
  2107852663421310755, 95996282563986226, 1823980167284537473, 1131224380692089654,
  785153590128414270, 792204546476509007, 1498646131145981428, 2299675623906896449,
  759146461432815828, 1388481238034130674, 1786019276160364078, 2221688686476973587,
  410683963341736745, 1965117965464994657, 826174364940768567, 1735550903329966021,
  157093137878731860, 28942984024659580, 589612299299312433, 1023743190550315930,
  2161516965650040758, 826488299936713239, 1287585836995227455, 1123447981379901379,
  107823494668936028, 317355518518583392, 9471324217665534, 373728079455908397,
  687168775150512091, 1804720946508755160, 1233221785543875082, 1558102402964744691,
  1783964422350026667, 1929027463121414210, 1778760915091770585, 1869511007886975003,
  1777250580662864467, 826453968766458403, 388848514993684652, 579791783429698060,
  627883784412356224, 574098498589454758, 1303832419674171175, 1002499786564357999,
  1727372406906909468, 1254085133328904619, 1636133116527937963, 70244876843907504,
  2234848508755412481, 1219445921251249221, 1205716189566644166, 271746435785272339,
  1389964884380064374, 1060353806060875117, 821219717790616200, 388838585101233239,
  2244057533956882602, 2114804050222426746, 1166417983938021038, 1132447806490280272,
  1387385608565360439, 1351873160204231718]

/-- Hand-rolled duplicate check, cheaper to evaluate than the `Nodup`
decidability instance. -/
def nodupB : List Nat → Bool
  | [] => true
  | x :: xs => !(xs.contains x) && nodupB xs


/-! ## THEME line sanitization (`parse_structured_response`, app.py 284-291 /
main.py 176-182)

`theme = re.sub(r'\s*-?\s*Replica\s*\d*\s*', '', raw_theme, flags=re.IGNORECASE).strip()`
`if not theme: theme = "Custom Theme"`

The regex is embedded as a deterministic scanner: the pattern's pieces
(`\s*`, one optional `-`, `\s*`, the literal, `\s*\d*\s*`) consume disjoint
character classes around the mandatory literal, so greedy matching without
backtracking computes exactly the leftmost-then-greedy match `re.sub` uses. -/

/-- Helper: drop one leading `-` if present (the `-?` of the pattern). -/
def afterDash (s : Str) : Str := if s.head? = some '-' then s.tail else s

/-- Helper: length consumed by `-?`. -/
def dashLen (s : Str) : Nat := if s.head? = some '-' then 1 else 0

/-- The text at which the pattern's mandatory literal must sit: the input
after the leading `\s*`, the optional `-` and the second `\s*`. -/
def replicaCore (s : Str) : Str := (afterDash (s.dropWhile isPySpace)).dropWhile isPySpace

/-- The text after the literal `Replica` (7 characters). -/
def replicaTail (s : Str) : Str := (replicaCore s).drop 7

/-- Does a match of `\s*-?\s*Replica\s*\d*\s*` (IGNORECASE) start at the head
of `s`?  Returns the total number of characters matched. -/
def matchAtReplica (s : Str) : Option Nat :=
  if ("replica".toList).isPrefixOf ((replicaCore s).map Char.toLower) then
    some ((s.takeWhile isPySpace).length + dashLen (s.dropWhile isPySpace)
      + ((afterDash (s.dropWhile isPySpace)).takeWhile isPySpace).length + 7
      + ((replicaTail s).takeWhile isPySpace).length
      + (((replicaTail s).dropWhile isPySpace).takeWhile Char.isDigit).length
      + ((((replicaTail s).dropWhile isPySpace).dropWhile Char.isDigit).takeWhile isPySpace).length)
  else none

/-- The matcher in the driver's format (replacement is empty; a match always
spans at least the 7 literal characters). -/
def replicaMatcher (s : Str) : Option (Str × Nat) :=
  (matchAtReplica s).map (fun n => (([] : Str), n - 1))

/-- Embeds `re.sub(r'\s*-?\s*Replica\s*\d*\s*', '', raw_theme, flags=re.IGNORECASE)`. -/
def replicaSub (raw_theme : Str) : Str := reSub replicaMatcher raw_theme

/-- The sanitization of the extracted THEME line (app.py 289-291):
global `Replica`-pattern removal, `strip()`, and the `"Custom Theme"`
placeholder exactly when the result is empty. -/
def sanitizeRawTheme (raw_theme : Str) : Str :=
  let theme := pyStrip (replicaSub raw_theme)
  if theme = [] then ("Custom Theme".toList) else theme

/-- Does a case-insensitive occurrence of `replica` appear anywhere in `s`? -/
def containsReplicaCI : Str → Bool
  | [] => false
  | c :: cs => "replica".toList.isPrefixOf ((c :: cs).map Char.toLower) || containsReplicaCI cs

/-- Does the `\s*-?\s*Replica\s*\d*\s*` pattern match the ENTIRE string `s`? -/
def matchesReplicaWhole (s : Str) : Bool := matchAtReplica s == some s.length

/-- Modelled from the spec's words, for comparison with the code's
`sanitizeRawTheme`: "The THEME line is sanitized by stripping any trailing
`- Replica N` suffix (case-insensitive) … an empty result after sanitization
defaults to a fixed placeholder title."  Removes the longest suffix of the
line wholly matched by the `Replica` pattern (and nothing elsewhere), then
trims and substitutes the placeholder when empty. -/
def sanitizeThemeSpecVersion (raw_theme : Str) : Str :=
  let stripped :=
    match (List.range raw_theme.length).find? (fun i => matchesReplicaWhole (raw_theme.drop i)) with
    | some i => raw_theme.take i
    | none => raw_theme
  let t := pyStrip stripped
  if t = [] then ("Custom Theme".toList) else t

/-! ## JSON cleaning (`clean_openai_json_response`, app.py 157-199 /
main.py 48-90) -/

/-- Markdown fence stripping (app.py 162-168): drop a leading
`` ```json `` (7 chars) or `` ``` `` (3 chars), then a trailing `` ``` ``. -/
def stripFences (cleaned : Str) : Str :=
  let c1 :=
    if ("```json".toList).isPrefixOf cleaned then cleaned.drop 7
    else if ("```".toList).isPrefixOf cleaned then cleaned.drop 3
    else cleaned
  if ("```".toList).isSuffixOf c1 then c1.take (c1.length - 3) else c1

/-- The fully cleaned text in which braces are searched:
`response_text.strip()`, fence stripping, `strip()` again (app.py 161-170). -/
def cleanedText (response_text : Str) : Str := pyStrip (stripFences (pyStrip response_text))

/-- Python `s.find(c)`: index of the first occurrence (None for `-1`). -/
def findIdxC (c : Char) : Str → Option Nat
  | [] => none
  | a :: as => if a = c then some 0 else (findIdxC c as).map (· + 1)

/-- Python `s.rfind(c)`: index of the last occurrence (None for `-1`). -/
def rfindIdx (s : Str) (c : Char) : Option Nat :=
  (findIdxC c s.reverse).map (fun j => s.length - 1 - j)

/-- The newline "fix" applied when the first parse fails (app.py 191):
`re.sub(r'(?<!\\)\n(?=.*"[^"]*$)', '\\n', json_content)`.  The replacement
template `\\n` is the two characters backslash-`n`, which `re.sub` processes
as the escape `\n`, i.e. a newline: every matched newline is replaced by a
newline, so the substitution is the identity on the string. -/
def fixUnescapedNewlines (json_content : Str) : Str := json_content

/-- Function `clean_openai_json_response`: strip fences, locate the first `{` and the
last `}`, raise (`Except.error`) when either is absent, else return the slice
`cleaned[start_idx:end_idx]`.  The subsequent parse attempts (app.py 183-199)
return `json_content` on every path — the retry applies only the identity
`fixUnescapedNewlines` — so the returned value does not depend on the parser
and the slice is returned unconditionally. -/
def clean_openai_json_response (response_text : Str) : Except Str Str :=
  let cleaned := cleanedText response_text
  match findIdxC lbraceC cleaned, rfindIdx cleaned rbraceC with
  | some start_idx, some last_idx =>
    .ok (fixUnescapedNewlines (pySlice cleaned start_idx (last_idx + 1)))
  | _, _ => .error ("No valid JSON object found in response".toList)

/-! ## JSON repair (`attempt_json_repair` / `fix_unterminated_strings`,
app.py 201-278 / main.py 92-169) -/

/-- Strategy 1: `s.replace('\n', '\\n').replace('\r', '\\r').replace('\t', '\\t')`. -/
def strategy1 (s : Str) : Str :=
  replaceAll ("\t".toList) ("\\t".toList)
    (replaceAll ("\r".toList) ("\\r".toList)
      (replaceAll ("\n".toList) ("\\n".toList) s))

/-- Take characters up to the next `"`; `some` only when that quote exists,
returning the run and the text after the quote. -/
def untilQuote (s : Str) : Option (Str × Str) :=
  match s.dropWhile (· ≠ '"') with
  | '"' :: rest => some (s.takeWhile (· ≠ '"'), rest)
  | _ => none

/-- Matcher for strategy 2's pattern `(:\s*")([^"]*)"([^"]*)"([^"]*)"` with
replacement `\1\2\\"\3\\"\4"`. -/
def matchAtS2 : Str → Option (Str × Nat)
  | ':' :: r0 =>
    let ws := r0.takeWhile isPySpace
    match r0.dropWhile isPySpace with
    | '"' :: r2 =>
      match untilQuote r2 with
      | some (g2, r3) =>
        match untilQuote r3 with
        | some (g3, r4) =>
          match untilQuote r4 with
          | some (g4, _) =>
            some (':' :: ws ++ '"' :: g2 ++ '\\' :: '"' :: g3 ++ '\\' :: '"' :: (g4 ++ ['"']),
              ws.length + g2.length + g3.length + g4.length + 4)
          | none => none
        | none => none
      | none => none
    | _ => none
  | _ => none

/-- Strategy 2: `re.sub(r'(:\s*")([^"]*)"([^"]*)"([^"]*)"', r'\1\2\\"\3\\"\4"', s)`. -/
def strategy2 (s : Str) : Str := reSub matchAtS2 s

/-- Matcher for strategy 3's pattern `,(\s*[}\]])`, replacement `\1`. -/
def matchAtS3 : Str → Option (Str × Nat)
  | ',' :: r0 =>
    let ws := r0.takeWhile isPySpace
    match r0.dropWhile isPySpace with
    | b :: _ => if b = rbraceC ∨ b = ']' then some (ws ++ [b], ws.length + 1) else none
    | [] => none
  | _ => none

/-- Strategy 3: `re.sub(r',(\s*[}\]])', r'\1', s)`. -/
def strategy3 (s : Str) : Str := reSub matchAtS3 s

/-- Python `line.split('\n')` (keeps empty pieces). -/
def splitNl : Str → List Str
  | [] => [[]]
  | c :: cs =>
    match splitNl cs with
    | [] => [[c]]
    | h :: t => if c = '\n' then [] :: h :: t else (c :: h) :: t

/-- Python `'\n'.join(lines)`. -/
def joinNl : List Str → Str
  | [] => []
  | [l] => l
  | l :: ls => l ++ '\n' :: joinNl ls

/-- Count unescaped double quotes: a `"` at position 0 or not preceded by
`\` (app.py 264-270).  `prev` is the previous character, `none` at position 0. -/
def countUq : Option Char → Str → Nat
  | _, [] => 0
  | prev, c :: cs => (if c = '"' ∧ prev ≠ some '\\' then 1 else 0) + countUq (some c) cs

/-- Python `line.split(':', 1)[1]`, defined when `:` occurs in the line. -/
def afterFirstColon (s : Str) : Str := (s.dropWhile (· ≠ ':')).drop 1

/-- The per-line repair of `fix_unterminated_strings` (app.py 256-276). -/
def fixLine (line : Str) : Str :=
  if ':' ∈ line then
    let value_part := pyStrip (afterFirstColon line)
    if countUq none value_part % 2 = 1 ∧ (pyRstrip value_part).getLast? ≠ some '"' then
      pyRstrip line ++ ['"']
    else line
  else line

/-- Strategy 4: `fix_unterminated_strings` (app.py 247-278). -/
def fix_unterminated_strings (json_str : Str) : Str :=
  joinNl ((splitNl json_str).map fixLine)

/-- Matcher for strategy 5's pattern `}(\s*)"`, replacement `},\1"`. -/
def matchAtS5 : Str → Option (Str × Nat)
  | c :: r0 =>
    if c = rbraceC then
      let ws := r0.takeWhile isPySpace
      match r0.dropWhile isPySpace with
      | '"' :: _ => some (rbraceC :: ',' :: (ws ++ ['"']), ws.length + 1)
      | _ => none
    else none
  | [] => none

/-- Strategy 5: `re.sub(r'}(\s*)"', r'},\1"', s)`. -/
def strategy5 (s : Str) : Str := reSub matchAtS5 s

/-- The five repair strategies, in source order (app.py 210-225). -/
def repairStrategies : List (Str → Str) := [strategy1, strategy2, strategy3, fix_unterminated_strings, strategy5]

/-- The loop of `attempt_json_repair` (app.py 229-238): apply the next
strategy to the CURRENT text, return the result if it parses, else continue
from that result (`current_json = repaired`; the strategies are total, so
`repaired` is always bound).  `json.loads` is the oracle `parses`. -/
def repairLoop (parses : Str → Bool) : List (Str → Str) → Str → Option Str
  | [], _ => none
  | f :: rest, current_json =>
    let repaired := f current_json
    if parses repaired then some repaired else repairLoop parses rest repaired

/-- Function `attempt_json_repair` (app.py 201-245): basic cleaning first; every
exception — including the `ValueError` `clean_openai_json_response` raises
when no braces exist — is caught by the outer `try`, yielding `None`. -/
def attempt_json_repair (parses : Str → Bool) (response_text : Str) : Option Str :=
  match clean_openai_json_response response_text with
  | .error _ => none
  | .ok cleaned => repairLoop parses repairStrategies cleaned

/-- The successive outputs of the strategy chain starting from `cur`:
element `k` is strategy `k+1` applied to the output of attempt `k`. -/
def chainOutputs : List (Str → Str) → Str → List Str
  | [], _ => []
  | f :: rest, cur => f cur :: chainOutputs rest (f cur)

/-! ## Batch metadata helpers (`extract_tag_value`, app.py 108-113) -/

/-- Python `str.title()` for the ASCII tag values this code handles:
an alphabetic character is upper-cased after a non-alphabetic character
(or at the start) and lower-cased otherwise. -/
def pyTitleGo : Bool → Str → Str
  | _, [] => []
  | prevAlpha, c :: cs =>
    (if c.isAlpha then (if prevAlpha then c.toLower else c.toUpper) else c) :: pyTitleGo c.isAlpha cs

/-- Python `str.title()`. -/
def pyTitle (s : Str) : Str := pyTitleGo false s

/-- Python `extract_tag_value(tag_list, prefix)`: first tag starting with the prefix,
with every occurrence of the prefix removed (`str.replace` replaces all),
underscores to spaces, and `title()`; `""` when no tag matches. -/
def extract_tag_value : List Str → Str → Str
  | [], _ => []
  | tag :: rest, pre =>
    if pre.isPrefixOf tag then pyTitle (replaceAll ("_".toList) (" ".toList) (replaceAll pre [] tag))
    else extract_tag_value rest pre

/-! ## Test-case re-numbering (`format_test_cases_from_original`,
app.py 115-146)

`uuid.uuid4()` is an oracle `gen : Nat → Str`: the `k`-th identifier drawn in
the batch is `gen k`, and `start` is how many identifiers earlier units have
already drawn. -/

/-- One original test case (fields optional, as Python `dict.get`). -/
structure TestCaseIn where
  id : Option Str
  display_text : Option Str
  criteria : Option Str
  evaluation_type : Option Str
  order : Option Int
  reason_for_failure : Option Str
  weightage : Option Int
deriving DecidableEq, Repr

/-- A re-formatted test case (app.py 134-142). -/
structure FormattedTestCase where
  id : Str
  display_text : Str
  criteria : Str
  evaluation_type : Str
  order : Int
  reason_for_failure : Option Str
  weightage : Int
deriving DecidableEq, Repr

/-- The dictionary built for the `i`-th copied test case (0-based `i`). -/
def mkFormattedTestCase (gen : Nat → Str) (start i : Nat) (test_case : TestCaseIn) :
    FormattedTestCase :=
  { id := gen (start + i)
    display_text := test_case.display_text.getD []
    criteria := test_case.criteria.getD []
    evaluation_type := test_case.evaluation_type.getD ("CLIENT_SIDE_EVALUATION".toList)
    order := test_case.order.getD (Int.ofNat (i + 1))
    reason_for_failure := test_case.reason_for_failure
    weightage := test_case.weightage.getD 10 }

/-- The `enumerate` loop of `format_test_cases_from_original`. -/
def formatFrom (gen : Nat → Str) (start : Nat) : Nat → List TestCaseIn → List FormattedTestCase
  | _, [] => []
  | i, t :: rest => mkFormattedTestCase gen start i t :: formatFrom gen start (i + 1) rest

/-- The `max_test_cases` computation (app.py 125-128): cap at
`len(original)`, lowered to `num_replicas` only when that argument is truthy
(non-`None`, non-zero) and smaller. -/
def formatCap (original_test_cases : List TestCaseIn) : Option Nat → Nat
  | some n => if n ≠ 0 ∧ n < original_test_cases.length then n else original_test_cases.length
  | none => original_test_cases.length

/-- Python `format_test_cases_from_original(original_test_cases, num_replicas)`
(app.py 115-146). -/
def format_test_cases_from_original (gen : Nat → Str) (start : Nat)
    (original_test_cases : List TestCaseIn) (num_replicas : Option Nat) :
    List FormattedTestCase :=
  formatFrom gen start 0 (original_test_cases.take (formatCap original_test_cases num_replicas))

/-! ## Batch orchestrator (`generate_replicas`, app.py 699-957 /
main.py 552-689)

External effects are oracles: `call i` is the OpenAI invocation for unit `i`
(the compiled prompt is a pure function of the request and selected theme, so
it is absorbed into the oracle's index), raising (`Except.error`) with the
stringified exception or returning the response text;
`parse : Str → Option RawParsed` is `parse_structured_response`, whose
try/except wrapper gives it exactly this type (`None` on any internal
exception).  Claims C1/C10 quantify over every such failure pattern. -/

/-- The record `parse_structured_response` returns (app.py 313-328). -/
structure RawParsed where
  short_text : Str
  html_code : Str
  css_code : Str
  js_code : Str
  question_text : Str
  test_cases : Str
  html_solution : Str
  css_solution : Str
  js_solution : Str
  subtopic : Str
  course : Str
  module : Str
  unit : Str
deriving DecidableEq, Repr

/-- The `test_cases` value of a replica dict: free text from the parse, or the
structured list the app.py orchestrator substitutes (app.py 903). -/
inductive TestCasesField where
  | text (s : Str)
  | formatted (l : List FormattedTestCase)
deriving DecidableEq, Repr

/-- A replica record as returned in the batch response. -/
structure ReplicaRecord where
  short_text : Str
  html_code : Str
  css_code : Str
  js_code : Str
  question_text : Str
  test_cases : TestCasesField
  html_solution : Str
  css_solution : Str
  js_solution : Str
  subtopic : Str
  course : Str
  module : Str
  unit : Str
deriving DecidableEq, Repr

/-- The validated generation request (the fields the orchestrator reads after
validation; the code/question/prompt fields feed only the prompt text, which
the `call` oracle absorbs).  `subtopic`…`unit` are the OPTIONAL top-level
request fields read by `data.get('subtopic', '')` etc. (app.py 945-948). -/
structure GenRequest where
  test_cases : List TestCaseIn
  tag_names : List Str
  num_replicas : Nat
  subtopic : Option Str
  course : Option Str
  module : Option Str
  unit : Option Str
deriving DecidableEq, Repr

/-- The four batch-level metadata values of the final update (app.py 945-957). -/
structure BatchMeta where
  subtopic : Str
  course : Str
  module : Str
  unit : Str
deriving DecidableEq, Repr

/-- Python `data.get('subtopic', '')` etc. -/
def metaOf (req : GenRequest) : BatchMeta :=
  { subtopic := req.subtopic.getD []
    course := req.course.getD []
    module := req.module.getD []
    unit := req.unit.getD [] }

/-- A slot value as recorded inside the generation loop. -/
inductive LoopEntry where
  | parsed (r : ReplicaRecord)
  | parseFailed (error : Str) (raw_response : Str)
  | apiFailed (error : Str)
deriving DecidableEq, Repr

/-- A slot value after the final metadata pass, which adds the four metadata
keys to EVERY dict entry, error entries included (app.py 950-957). -/
inductive PublicEntry where
  | parsed (r : ReplicaRecord)
  | parseFailed (error : Str) (raw_response : Str) (meta : BatchMeta)
  | apiFailed (error : Str) (meta : BatchMeta)
deriving DecidableEq, Repr

/-- The key `f'replica_{i}'`. -/
def replicaKey (i : Nat) : Str := "replica_".toList ++ natStr i

/-- The indices `range(1, num_replicas + 1)`. -/
def idxRange (num_replicas : Nat) : List Nat := (List.range num_replicas).map (· + 1)

/-- The replica dict built in app.py's success branch (app.py 897-911):
the parsed record with `test_cases` replaced by the structured copies and the
tag-derived metadata attached. -/
def rawToRecordApp (rd : RawParsed) (tcs : List FormattedTestCase) (tags : List Str) :
    ReplicaRecord :=
  { short_text := rd.short_text
    html_code := rd.html_code
    css_code := rd.css_code
    js_code := rd.js_code
    question_text := rd.question_text
    test_cases := .formatted tcs
    html_solution := rd.html_solution
    css_solution := rd.css_solution
    js_solution := rd.js_solution
    subtopic := extract_tag_value tags ("SUB_TOPIC_".toList)
    course := extract_tag_value tags ("COURSE_".toList)
    module := extract_tag_value tags ("MODULE_".toList)
    unit := extract_tag_value tags ("UNIT_".toList) }

/-- One iteration of app.py's generation loop (app.py 699-932), returning the
recorded entry and the updated count of identifiers drawn from `gen`.
The success branch calls
`format_test_cases_from_original(original_test_cases, len(original_test_cases))`
(app.py 900) — the cap argument is the ORIGINALS count, not `num_replicas`. -/
def processUnitApp (req : GenRequest) (call : Nat → Except Str Str)
    (parse : Str → Option RawParsed) (gen : Nat → Str) (ctr i : Nat) : LoopEntry × Nat :=
  match call i with
  | .error e => (.apiFailed ("API Error: ".toList ++ e), ctr)
  | .ok response_content =>
    match parse response_content with
    | some replica_data =>
      let formatted := format_test_cases_from_original gen ctr req.test_cases
        (some req.test_cases.length)
      (.parsed (rawToRecordApp replica_data formatted req.tag_names), ctr + formatted.length)
    | none =>
      (.parseFailed ("Failed to parse structured response for replica ".toList ++ natStr i)
        (response_content.take 500), ctr)

/-- app.py's generation loop over the unit indices (`for i in range(1, N+1)`). -/
def runLoopApp (req : GenRequest) (call : Nat → Except Str Str)
    (parse : Str → Option RawParsed) (gen : Nat → Str) :
    List Nat → Nat → List (Str × LoopEntry)
  | [], _ => []
  | i :: rest, ctr =>
    let step := processUnitApp req call parse gen ctr i
    (replicaKey i, step.1) :: runLoopApp req call parse gen rest step.2

/-- The final metadata pass (app.py 944-957): every dict entry — parsed or
failed — gets `subtopic`/`course`/`module`/`unit` set from the request's
top-level fields, overwriting the tag-derived values on parsed records. -/
def finalizeEntry (req : GenRequest) : LoopEntry → PublicEntry
  | .parsed r =>
    .parsed { r with
      subtopic := req.subtopic.getD []
      course := req.course.getD []
      module := req.module.getD []
      unit := req.unit.getD [] }
  | .parseFailed e raw => .parseFailed e raw (metaOf req)
  | .apiFailed e => .apiFailed e (metaOf req)

/-- app.py's `generate_replicas` replica mapping: the loop's ordered
association list, then the final metadata pass. -/
def generate_replicas_app (req : GenRequest) (call : Nat → Except Str Str)
    (parse : Str → Option RawParsed) (gen : Nat → Str) : List (Str × PublicEntry) :=
  (runLoopApp req call parse gen (idxRange req.num_replicas) 0).map
    (fun p => (p.1, finalizeEntry req p.2))

/-- main.py's success branch stores the parsed dict unchanged (main.py 644-646):
`test_cases` stays free text and the metadata fields keep the parse's values. -/
def rawToRecordMain (rd : RawParsed) : ReplicaRecord :=
  { short_text := rd.short_text
    html_code := rd.html_code
    css_code := rd.css_code
    js_code := rd.js_code
    question_text := rd.question_text
    test_cases := .text rd.test_cases
    html_solution := rd.html_solution
    css_solution := rd.css_solution
    js_solution := rd.js_solution
    subtopic := rd.subtopic
    course := rd.course
    module := rd.module
    unit := rd.unit }

/-- One iteration of main.py's generation loop (main.py 552-664). -/
def processUnitMain (call : Nat → Except Str Str) (parse : Str → Option RawParsed)
    (i : Nat) : LoopEntry :=
  match call i with
  | .error e => .apiFailed ("API Error: ".toList ++ e)
  | .ok response_content =>
    match parse response_content with
    | some replica_data => .parsed (rawToRecordMain replica_data)
    | none =>
      .parseFailed ("Failed to parse structured response for replica ".toList ++ natStr i)
        (response_content.take 500)

/-- main.py's `generate_replicas` replica mapping (loop, then the same final
metadata pass, main.py 676-689). -/
def generate_replicas_main (req : GenRequest) (call : Nat → Except Str Str)
    (parse : Str → Option RawParsed) : List (Str × PublicEntry) :=
  ((idxRange req.num_replicas).map (fun i => (replicaKey i, processUnitMain call parse i))).map
    (fun p => (p.1, finalizeEntry req p.2))



/-- The structured test-case copies embedded in a record (empty for the
free-text form). -/
def copiesOf (r : ReplicaRecord) : List FormattedTestCase :=
  match r.test_cases with
  | .formatted f => f
  | .text _ => []

/-- The identifier-counter update of one loop iteration. -/
def stepCtr (req : GenRequest) (call : Nat → Except Str Str)
    (parse : Str → Option RawParsed) (gen : Nat → Str) (ctr i : Nat) : Nat :=
  (processUnitApp req call parse gen ctr i).2

/-- How many identifiers have been drawn from `gen` before the unit at
position `k` of the loop runs. -/
def ctrAt (req : GenRequest) (call : Nat → Except Str Str)
    (parse : Str → Option RawParsed) (gen : Nat → Str)
    (idxs : List Nat) (ctr k : Nat) : Nat :=
  (idxs.take k).foldl (stepCtr req call parse gen) ctr

/-! ## Concrete inputs for witnesses and counterexamples -/

/-- An original test case with identifier `x`. -/
def wTc1 : TestCaseIn :=
  { id := some ['x'], display_text := some ("check total".toList)
    criteria := some ("total is shown".toList), evaluation_type := none
    order := none, reason_for_failure := none, weightage := none }

/-- An original test case with identifier `y` and every optional field set. -/
def wTc2 : TestCaseIn :=
  { id := some ['y'], display_text := some ("check reset".toList)
    criteria := none, evaluation_type := some ("SERVER_SIDE_EVALUATION".toList)
    order := some 5, reason_for_failure := some ("button missing".toList), weightage := some 3 }

/-- A fixed parse result. -/
def wRaw : RawParsed :=
  { short_text := "Bakery".toList, html_code := "h".toList, css_code := "c".toList
    js_code := "j".toList, question_text := "q".toList, test_cases := "t1".toList
    html_solution := "h".toList, css_solution := "c".toList, js_solution := "j".toList
    subtopic := [], course := [], module := [], unit := [] }

/-- A request asking for ONE replica while providing TWO original test cases,
with a `SUB_TOPIC_` tag and no top-level metadata fields. -/
def wReq : GenRequest :=
  { test_cases := [wTc1, wTc2], tag_names := ["SUB_TOPIC_data_analysis".toList]
    num_replicas := 1, subtopic := none, course := none, module := none, unit := none }

/-- An invocation oracle that always returns a response. -/
def wCallOk : Nat → Except Str Str := fun _ => Except.ok ("resp".toList)

/-- A parse oracle that always succeeds with `wRaw`. -/
def wParse : Str → Option RawParsed := fun _ => some wRaw

/-- A parse oracle that always fails. -/
def wParseNone : Str → Option RawParsed := fun _ => none

/-- A uuid oracle: the `n`-th identifier is `n + 1` copies of `u`. -/
def wGen : Nat → Str := fun n => List.replicate (n + 1) 'u'

/-- The batch result for `wReq` with the always-succeeding oracles. -/
def wResult : List (Str × PublicEntry) := generate_replicas_app wReq wCallOk wParse wGen

/-- Fallback entry for total projections. -/
def defaultEntry : Str × PublicEntry :=
  ([], PublicEntry.apiFailed [] { subtopic := [], course := [], module := [], unit := [] })

/-- Slot 1's entry of `wResult`. -/
def wEntry : Str × PublicEntry := wResult.getD 0 defaultEntry

/-- Fallback record for total projections. -/
def emptyRecord : ReplicaRecord :=
  { short_text := [], html_code := [], css_code := [], js_code := []
    question_text := [], test_cases := TestCasesField.text []
    html_solution := [], css_solution := [], js_solution := []
    subtopic := [], course := [], module := [], unit := [] }

/-- Slot 1's parsed record of `wResult`. -/
def wRecord : ReplicaRecord :=
  match wEntry.2 with
  | PublicEntry.parsed r => r
  | _ => emptyRecord

/-- A two-unit request whose top-level `subtopic` field is `"Algebra"`. -/
def wReq2 : GenRequest :=
  { test_cases := [], tag_names := [], num_replicas := 2
    subtopic := some ("Algebra".toList), course := none, module := none, unit := none }

/-- An invocation oracle raising at unit 1 only. -/
def wCallFail1 : Nat → Except Str Str :=
  fun i => if i = 1 then Except.error ("boom".toList) else Except.ok ("OK".toList)

/-- An invocation oracle that always raises. -/
def wCallErr : Nat → Except Str Str := fun _ => Except.error ("boom".toList)

/-! ## Theorems -/

theorem nodupB_correct : nodupB l = true → l.Nodup := by
  induction l with
  | nil => intro _; exact List.nodup_nil
  | cons x xs ih =>
    intro h
    simp only [nodupB, Bool.and_eq_true, Bool.not_eq_true] at h
    refine List.nodup_cons.2 ⟨?_, ih h.2⟩
    intro hmem
    have hc := List.elem_eq_true_of_mem hmem
    simp [List.contains] at h
    simp [h.1] at hc

set_option maxRecDepth 40000 in
theorem map_themeSuffix_eq : themesList.map themeSuffix = suffixesList := by decide

set_option maxRecDepth 40000 in
theorem encLits_eq : suffixesList.map encStr = encLits := by decide

set_option maxRecDepth 40000 in
set_option maxHeartbeats 1000000 in
theorem encLits_nodupB : nodupB encLits = true := by decide

theorem suffixesList_nodup : suffixesList.Nodup :=
  List.Nodup.of_map encStr (encLits_eq ▸ nodupB_correct encLits_nodupB)

theorem themeSuffix_pool_nodup : (themesList.map themeSuffix).Nodup :=
  map_themeSuffix_eq ▸ suffixesList_nodup

set_option maxRecDepth 40000 in
theorem suffixesList_nonempty : suffixesList.all (fun s => !(s = [])) = true := by decide

theorem themeSuffix_pool_nonempty : ∀ t ∈ themesList, themeSuffix t ≠ [] := by
  intro t ht
  have hmem : themeSuffix t ∈ suffixesList :=
    map_themeSuffix_eq ▸ List.mem_map_of_mem themeSuffix ht
  have := List.all_eq_true.1 suffixesList_nonempty _ hmem
  simpa using this


theorem range_map_getD (l : List Str) :
    ∀ N : Nat, N ≤ l.length → (List.range N).map (fun j => l.getD j []) = l.take N := by
  intro N
  induction N with
  | zero => intro _; simp
  | succ n ih =>
    intro h
    have hn : n ≤ l.length := Nat.le_of_succ_le h
    have hlt : n < l.length := h
    rw [List.range_succ, List.map_append, ih hn, List.take_succ]
    simp [List.getD_eq_getElem?_getD, List.getElem?_eq_getElem hlt]

theorem mem_idxRange {i N : Nat} : i ∈ idxRange N ↔ 1 ≤ i ∧ i ≤ N := by
  simp only [idxRange, List.mem_map, List.mem_range]
  constructor
  · rintro ⟨j, hj, rfl⟩; omega
  · rintro ⟨h1, h2⟩; exact ⟨i - 1, by omega, by omega⟩

/-- Claim C6.** For every batch size `N` at most the pool size, the `N` idSuffix
values derived from the `N` assigned themes — unit `i` draws
`shuffled_themes[(i-1) % len]`, for any shuffle (permutation) of the pool —
are pairwise distinct and non-empty. -/
theorem claim_C6 (sh : List Str) (hperm : sh.Perm themesList) :
    ∀ N, N ≤ themesList.length →
      ((idxRange N).map (fun i => themeSuffix (selectedThemeApp sh i))).Nodup
      ∧ ∀ i ∈ idxRange N, themeSuffix (selectedThemeApp sh i) ≠ [] := by
  intro N hN
  have hlen : sh.length = themesList.length := hperm.length_eq
  have hNs : N ≤ sh.length := by omega
  constructor
  · have hmapeq : (idxRange N).map (fun i => selectedThemeApp sh i)
        = (List.range N).map (fun j => sh.getD j []) := by
      simp only [idxRange, List.map_map]
      refine List.map_congr_left ?_
      intro j hj
      have hjN : j < N := List.mem_range.1 hj
      have hmod : j % sh.length = j := Nat.mod_eq_of_lt (by omega)
      simp only [selectedThemeApp, Function.comp, Nat.add_sub_cancel]
      rw [hmod]
    have htake : (idxRange N).map (fun i => selectedThemeApp sh i) = sh.take N := by
      rw [hmapeq, range_map_getD sh N hNs]
    have h2 := congrArg (List.map themeSuffix) htake
    rw [List.map_map] at h2
    rw [show (fun i => themeSuffix (selectedThemeApp sh i))
        = themeSuffix ∘ (fun i => selectedThemeApp sh i) from rfl, h2]
    have hnodup : (sh.map themeSuffix).Nodup :=
      ((hperm.map themeSuffix).nodup_iff).2 themeSuffix_pool_nodup
    exact hnodup.sublist ((List.take_sublist N sh).map themeSuffix)
  · intro i hi
    obtain ⟨h1, h2⟩ := mem_idxRange.1 hi
    have hpos : 0 < sh.length := by omega
    have hidx : (i - 1) % sh.length < sh.length := Nat.mod_lt _ hpos
    have hmem : selectedThemeApp sh i ∈ sh := by
      simp only [selectedThemeApp, List.getD_eq_getElem?_getD,
        List.getElem?_eq_getElem hidx]
      exact List.getElem_mem _
    exact themeSuffix_pool_nonempty _ (hperm.mem_iff.1 hmem)

set_option maxRecDepth 40000 in
/-- Witness for C6 at the identity shuffle and `N = 2`. -/
theorem claim_C6_witness :
    themesList.Perm themesList ∧ 2 ≤ themesList.length
    ∧ (((idxRange 2).map (fun i => themeSuffix (selectedThemeApp themesList i))).Nodup
       ∧ ∀ i ∈ idxRange 2, themeSuffix (selectedThemeApp themesList i) ≠ []) :=
  ⟨List.Perm.refl _, by decide, claim_C6 themesList (List.Perm.refl _) 2 (by decide)⟩

set_option maxRecDepth 40000 in
/-- Claim C2** (divergence witness). main.py's selection reads the ORIGINAL pool:
with the shuffle that reverses the pool, unit 1's theme under main.py is
`themes[0] = "Coffee Shop Manager"`, while position 0 of the shuffled pool —
which the claim (and app.py's `shuffled_themes[(i-1) % len]`) prescribe — is
`"Classic Game Shop"`. -/
theorem claim_C2_divergence :
    themesList.reverse.Perm themesList
    ∧ selectedThemeMain themesList themesList.reverse 1 = "Coffee Shop Manager".toList
    ∧ selectedThemeApp themesList.reverse 1 = "Classic Game Shop".toList
    ∧ selectedThemeMain themesList themesList.reverse 1 ≠ selectedThemeApp themesList.reverse 1 := by
  refine ⟨List.reverse_perm _, by decide, by decide, by decide⟩

/-- Claim C9.** Session reset zeroes `session_tokens` and leaves `total_tokens`
unchanged; each batch's update adds the same delta to both counters, so two
sequential batches costing `a` and `b` raise `total_tokens` by `a + b`. -/
theorem claim_C9 (st : TokenLedger) (a b : Int) :
    (reset_session_tokens st).session_tokens = 0
    ∧ (reset_session_tokens st).total_tokens = st.total_tokens
    ∧ (recordBatchTokens a st).session_tokens = st.session_tokens + a
    ∧ (recordBatchTokens a st).total_tokens = st.total_tokens + a
    ∧ (recordBatchTokens b (recordBatchTokens a st)).total_tokens = st.total_tokens + (a + b) := by
  refine ⟨rfl, rfl, rfl, rfl, ?_⟩
  simp [recordBatchTokens, update_token_usage, add_assoc]

theorem repairLoop_eq_find (parses : Str → Bool) :
    ∀ (fs : List (Str → Str)) (cur : Str),
      repairLoop parses fs cur = (chainOutputs fs cur).find? parses := by
  intro fs
  induction fs with
  | nil => intro cur; rfl
  | cons f rest ih =>
    intro cur
    simp only [repairLoop, chainOutputs, List.find?_cons]
    by_cases h : parses (f cur)
    · simp [h]
    · simp [h, ih (f cur)]

/-- Claim C4.** For every input and every behaviour of the JSON parser oracle,
`attempt_json_repair` terminates with an `Option` (exceptions, including the
no-braces `ValueError` of the basic cleaning, are caught and become `none`);
on a cleaned input it returns the FIRST output of the five-strategy chain the
parser accepts — strategy 1 first, each later strategy applied to the output
of the previous attempt — and `none` when no strategy's output parses. -/
theorem claim_C4 (parses : Str → Bool) (response_text : Str) :
    attempt_json_repair parses response_text
      = (clean_openai_json_response response_text).toOption.bind
          (fun cleaned => (chainOutputs repairStrategies cleaned).find? parses)
    ∧ ∀ t, attempt_json_repair parses response_text = some t → parses t = true := by
  have heq : attempt_json_repair parses response_text
      = (clean_openai_json_response response_text).toOption.bind
          (fun cleaned => (chainOutputs repairStrategies cleaned).find? parses) := by
    unfold attempt_json_repair
    cases clean_openai_json_response response_text with
    | error e => rfl
    | ok cleaned => simp [Except.toOption, repairLoop_eq_find]
  refine ⟨heq, ?_⟩
  intro t ht
  rw [heq] at ht
  cases hc : clean_openai_json_response response_text with
  | error e => rw [hc] at ht; simp [Except.toOption] at ht
  | ok cleaned =>
    rw [hc] at ht
    simp only [Except.toOption, Option.some_bind] at ht
    exact List.find?_some ht

/-- Witness for C4's acceptance conjunct: a parser oracle that accepts exactly
the braced input sees the repair succeed (with strategy 1's output) and the
returned string indeed parses. -/
theorem claim_C4_witness :
    attempt_json_repair (fun s => s == [lbraceC, 'x', rbraceC]) ('a' :: [lbraceC, 'x', rbraceC])
        = some [lbraceC, 'x', rbraceC]
    ∧ (fun s => s == [lbraceC, 'x', rbraceC]) [lbraceC, 'x', rbraceC] = true :=
  ⟨by decide,
   (claim_C4 (fun s => s == [lbraceC, 'x', rbraceC]) ('a' :: [lbraceC, 'x', rbraceC])).2
     [lbraceC, 'x', rbraceC] (by decide)⟩

theorem findIdxC_none_iff (c : Char) : ∀ l : Str, findIdxC c l = none ↔ c ∉ l := by
  intro l
  induction l with
  | nil => simp [findIdxC]
  | cons a as ih =>
    by_cases h : a = c
    · simp [findIdxC, h]
    · simp only [findIdxC, if_neg h, List.mem_cons]
      cases hf : findIdxC c as with
      | none => simp [ih.1 hf, h, Ne.symm h]
      | some k =>
        have : c ∈ as := by
          by_contra hmem
          rw [(ih.2 hmem)] at hf
          exact absurd hf (by simp)
        simp [this, h]

theorem findIdxC_first (c : Char) :
    ∀ (l : Str) (i : Nat), l[i]? = some c → (∀ m < i, l[m]? ≠ some c) →
      findIdxC c l = some i := by
  intro l
  induction l with
  | nil => intro i hi _; simp at hi
  | cons a as ih =>
    intro i hi hfirst
    cases i with
    | zero =>
      rw [List.getElem?_cons_zero] at hi
      have : a = c := by injection hi
      simp [findIdxC, this]
    | succ j =>
      have hne : ¬ (a = c) := by
        intro hac
        exact hfirst 0 (Nat.succ_pos j) (by simp [hac])
      rw [List.getElem?_cons_succ] at hi
      have hrest : ∀ m < j, as[m]? ≠ some c := by
        intro m hm
        have := hfirst (m + 1) (by omega)
        simpa using this
      simp [findIdxC, hne, ih j hi hrest]

theorem rfindIdx_none_iff (s : Str) (c : Char) : rfindIdx s c = none ↔ c ∉ s := by
  unfold rfindIdx
  cases hf : findIdxC c s.reverse with
  | none =>
    have := (findIdxC_none_iff c s.reverse).1 hf
    simp at this
    simp [this]
  | some k =>
    have hmem : c ∈ s.reverse := by
      by_contra hmem
      rw [(findIdxC_none_iff c s.reverse).2 hmem] at hf
      exact absurd hf (by simp)
    simp at hmem
    simp [hmem]

theorem rfindIdx_last (s : Str) (c : Char) (j : Nat)
    (hj : s[j]? = some c) (hlast : ∀ m < s.length, j < m → s[m]? ≠ some c) :
    rfindIdx s c = some j := by
  have hjlen : j < s.length := by
    by_contra hge
    rw [List.getElem?_eq_none (by omega)] at hj
    exact absurd hj (by simp)
  have hrev : s.reverse[s.length - 1 - j]? = some c := by
    rw [List.getElem?_reverse (by omega)]
    have : s.length - 1 - (s.length - 1 - j) = j := by omega
    rw [this]; exact hj
  have hrevfirst : ∀ m < s.length - 1 - j, s.reverse[m]? ≠ some c := by
    intro m hm
    have hmlen : m < s.length := by omega
    rw [List.getElem?_reverse hmlen]
    exact hlast (s.length - 1 - m) (by omega) (by omega)
  unfold rfindIdx
  rw [findIdxC_first c s.reverse (s.length - 1 - j) hrev hrevfirst]
  have harith : s.length - 1 - (s.length - 1 - j) = j := by omega
  simp [harith]

/-- Claim C5.** The JSON extraction step fails hard ("no JSON object found") if
and only if the fence-stripped text lacks a `{` or lacks a `}`; when both are
present it returns the slice from the first `{` through the last `}` —
never a silently fabricated value. -/
theorem claim_C5 (response_text : Str) :
    ((∃ e, clean_openai_json_response response_text = .error e)
        ↔ ¬ (lbraceC ∈ cleanedText response_text ∧ rbraceC ∈ cleanedText response_text))
    ∧ (∀ i j,
        ((cleanedText response_text)[i]? = some lbraceC
          ∧ ∀ m < i, (cleanedText response_text)[m]? ≠ some lbraceC) →
        ((cleanedText response_text)[j]? = some rbraceC
          ∧ ∀ m < (cleanedText response_text).length, j < m →
              (cleanedText response_text)[m]? ≠ some rbraceC) →
        clean_openai_json_response response_text
          = .ok (pySlice (cleanedText response_text) i (j + 1))) := by
  have hmatch : clean_openai_json_response response_text =
      match findIdxC lbraceC (cleanedText response_text),
        rfindIdx (cleanedText response_text) rbraceC with
      | some i, some j => .ok (pySlice (cleanedText response_text) i (j + 1))
      | _, _ => .error ("No valid JSON object found in response".toList) := rfl
  constructor
  · rw [hmatch]
    cases hf : findIdxC lbraceC (cleanedText response_text) with
    | none =>
      have h1 : lbraceC ∉ cleanedText response_text := (findIdxC_none_iff _ _).1 hf
      cases hr : rfindIdx (cleanedText response_text) rbraceC with
      | none =>
        constructor
        · intro _; exact fun hcon => h1 hcon.1
        · intro _; exact ⟨_, rfl⟩
      | some j =>
        constructor
        · intro _; exact fun hcon => h1 hcon.1
        · intro _; exact ⟨_, rfl⟩
    | some i =>
      have h1 : lbraceC ∈ cleanedText response_text := by
        by_contra hmem
        rw [(findIdxC_none_iff _ _).2 hmem] at hf
        exact absurd hf (by simp)
      cases hr : rfindIdx (cleanedText response_text) rbraceC with
      | none =>
        have h2 : rbraceC ∉ cleanedText response_text := (rfindIdx_none_iff _ _).1 hr
        constructor
        · intro _; exact fun hcon => h2 hcon.2
        · intro _; exact ⟨_, rfl⟩
      | some j =>
        have h2 : rbraceC ∈ cleanedText response_text := by
          by_contra hmem
          rw [(rfindIdx_none_iff _ _).2 hmem] at hr
          exact absurd hr (by simp)
        constructor
        · rintro ⟨e, he⟩; exact absurd he (by simp)
        · intro hcon; exact absurd ⟨h1, h2⟩ hcon
  · intro i j hfirst hlast
    rw [hmatch, findIdxC_first lbraceC (cleanedText response_text) i hfirst.1 hfirst.2,
      rfindIdx_last (cleanedText response_text) rbraceC j hlast.1 hlast.2]

/-- Witness for C5's slice conjunct at the concrete text `a{b}c`. -/
theorem claim_C5_witness :
    clean_openai_json_response ['a', lbraceC, 'b', rbraceC, 'c']
      = .ok (pySlice (cleanedText ['a', lbraceC, 'b', rbraceC, 'c']) 1 (3 + 1)) :=
  (claim_C5 ['a', lbraceC, 'b', rbraceC, 'c']).2 1 3 (by decide) (by decide)

theorem contains_of_contains_dropWhile (p : Char → Bool) :
    ∀ s : Str, containsReplicaCI (s.dropWhile p) = true → containsReplicaCI s = true := by
  intro s
  induction s with
  | nil => intro h; simpa using h
  | cons c cs ih =>
    intro h
    by_cases hc : p c
    · rw [List.dropWhile_cons, if_pos hc] at h
      simp [containsReplicaCI, ih h]
    · rw [List.dropWhile_cons, if_neg hc] at h
      exact h

theorem contains_of_pref_dropWhile (p : Char → Bool) :
    ∀ s : Str, "replica".toList.isPrefixOf ((s.dropWhile p).map Char.toLower) = true →
      containsReplicaCI s = true := by
  intro s
  induction s with
  | nil => intro h; rw [List.dropWhile_nil] at h; exact absurd h (by decide)
  | cons c cs ih =>
    intro h
    by_cases hc : p c
    · rw [List.dropWhile_cons, if_pos hc] at h
      simp [containsReplicaCI, ih h]
    · rw [List.dropWhile_cons, if_neg hc] at h
      simp only [containsReplicaCI]
      rw [h]
      simp

theorem contains_afterDash (s : Str) (h : containsReplicaCI (afterDash s) = true) :
    containsReplicaCI s = true := by
  cases s with
  | nil => exact h
  | cons c t =>
    by_cases hc : c = '-'
    · have heq : afterDash (c :: t) = t := by simp [afterDash, hc]
      rw [heq] at h
      simp [containsReplicaCI, h]
    · have heq : afterDash (c :: t) = c :: t := by simp [afterDash, hc]
      rw [heq] at h
      exact h

theorem matchAtReplica_none_of_not_contains (s : Str)
    (h : containsReplicaCI s = false) : matchAtReplica s = none := by
  have hpref : ¬ ("replica".toList.isPrefixOf ((replicaCore s).map Char.toLower) = true) := by
    intro hp
    have h3 := contains_of_pref_dropWhile isPySpace (afterDash (s.dropWhile isPySpace)) hp
    have h2 := contains_afterDash _ h3
    have h1 := contains_of_contains_dropWhile isPySpace s h2
    rw [h] at h1
    exact absurd h1 (by decide)
  unfold matchAtReplica
  rw [if_neg hpref]

theorem reSubGo_replica_id :
    ∀ (fuel : Nat) (s : Str), containsReplicaCI s = false →
      reSubGo replicaMatcher fuel s = s := by
  intro fuel
  induction fuel with
  | zero => intro s _; rfl
  | succ n ih =>
    intro s h
    cases s with
    | nil => rfl
    | cons c cs =>
      have hm : replicaMatcher (c :: cs) = none := by
        unfold replicaMatcher
        rw [matchAtReplica_none_of_not_contains _ h]
        rfl
      have hcs : containsReplicaCI cs = false := by
        have h2 := h
        simp only [containsReplicaCI, Bool.or_eq_false_iff] at h2
        exact h2.2
      simp [reSubGo, hm, ih cs hcs]

theorem replicaSub_id (s : Str) (h : containsReplicaCI s = false) : replicaSub s = s :=
  reSubGo_replica_id s.length s h

/-- Claim C7** (amended).  The sanitizer removes EVERY occurrence (not only a
trailing one) of `Replica` — case-insensitive, with adjacent whitespace, an
optional preceding hyphen and optional following digits — then trims
whitespace: a line without any occurrence of `replica` is left intact apart
from whitespace trimming; a trailing `- Replica N` suffix is indeed stripped;
and the fixed placeholder `"Custom Theme"` is substituted exactly when the
sanitized result is empty. -/
theorem claim_C7_amended (raw_theme : Str) :
    (containsReplicaCI raw_theme = false →
      sanitizeRawTheme raw_theme
        = (if pyStrip raw_theme = [] then ("Custom Theme".toList) else pyStrip raw_theme))
    ∧ sanitizeRawTheme raw_theme
        = (if pyStrip (replicaSub raw_theme) = [] then ("Custom Theme".toList)
           else pyStrip (replicaSub raw_theme))
    ∧ sanitizeRawTheme ("My Cafe - Replica 3".toList) = "My Cafe".toList := by
  refine ⟨?_, rfl, by decide⟩
  intro h
  unfold sanitizeRawTheme
  rw [replicaSub_id raw_theme h]

/-- Claim C7** (counterexample).  `"Replica Coffee"` carries no trailing
`- Replica N` suffix, so the claimed trailing-only sanitization must leave it
intact; the code removes the leading `"Replica "` occurrence instead. -/
theorem claim_C7_counterexample :
    sanitizeRawTheme ("Replica Coffee".toList) = "Coffee".toList
    ∧ sanitizeThemeSpecVersion ("Replica Coffee".toList) = "Replica Coffee".toList
    ∧ sanitizeRawTheme ("Replica Coffee".toList)
        ≠ sanitizeThemeSpecVersion ("Replica Coffee".toList) :=
  ⟨by decide, by decide, by decide⟩

/-- Witness for C7's no-occurrence conjunct at `"Bakery Counter"`. -/
theorem claim_C7_witness :
    containsReplicaCI ("Bakery Counter".toList) = false
    ∧ sanitizeRawTheme ("Bakery Counter".toList)
        = (if pyStrip ("Bakery Counter".toList) = [] then ("Custom Theme".toList)
           else pyStrip ("Bakery Counter".toList)) :=
  ⟨by decide, (claim_C7_amended ("Bakery Counter".toList)).1 (by decide)⟩

theorem runLoopApp_keys (req : GenRequest) (call : Nat → Except Str Str)
    (parse : Str → Option RawParsed) (gen : Nat → Str) :
    ∀ (idxs : List Nat) (ctr : Nat),
      (runLoopApp req call parse gen idxs ctr).map Prod.fst = idxs.map replicaKey := by
  intro idxs
  induction idxs with
  | nil => intro ctr; rfl
  | cons i rest ih =>
    intro ctr
    simp only [runLoopApp, List.map_cons]
    rw [ih]

/-- Claim C1.** For every request with `num_replicas ≥ 1` and EVERY pattern of
per-unit failures — `call` may raise at any unit, `parse` may fail on any
response — both orchestrators return a mapping whose keys are exactly
`replica_1 … replica_N` in order, each slot a parsed record or a failure
entry; a failure at one unit never prevents later units from being recorded. -/
theorem claim_C1 (req : GenRequest) (call : Nat → Except Str Str)
    (parse : Str → Option RawParsed) (gen : Nat → Str)
    (hN : 1 ≤ req.num_replicas) :
    (generate_replicas_app req call parse gen).map Prod.fst
        = (idxRange req.num_replicas).map replicaKey
    ∧ (generate_replicas_main req call parse).map Prod.fst
        = (idxRange req.num_replicas).map replicaKey
    ∧ ∀ p ∈ generate_replicas_app req call parse gen,
        (∃ r, p.2 = PublicEntry.parsed r)
        ∨ (∃ m raw meta, p.2 = PublicEntry.parseFailed m raw meta)
        ∨ (∃ m meta, p.2 = PublicEntry.apiFailed m meta) := by
  refine ⟨?_, ?_, ?_⟩
  · unfold generate_replicas_app
    rw [List.map_map]
    rw [show ((Prod.fst : Str × PublicEntry → Str)
        ∘ fun p : Str × LoopEntry => (p.1, finalizeEntry req p.2)) = Prod.fst from rfl]
    exact runLoopApp_keys req call parse gen _ 0
  · unfold generate_replicas_main
    rw [List.map_map, List.map_map]
    rfl
  · intro p _
    rcases p with ⟨k, e⟩
    cases e with
    | parsed r => exact Or.inl ⟨r, rfl⟩
    | parseFailed m raw meta => exact Or.inr (Or.inl ⟨m, raw, meta, rfl⟩)
    | apiFailed m meta => exact Or.inr (Or.inr ⟨m, meta, rfl⟩)

/-- Witness for C1 at a concrete two-unit batch whose first unit's invocation
raises and whose responses never parse. -/
theorem claim_C1_witness :
    1 ≤ wReq2.num_replicas
    ∧ ((generate_replicas_app wReq2 wCallFail1 wParseNone wGen).map Prod.fst
        = (idxRange wReq2.num_replicas).map replicaKey
      ∧ (generate_replicas_main wReq2 wCallFail1 wParseNone).map Prod.fst
        = (idxRange wReq2.num_replicas).map replicaKey
      ∧ ∀ p ∈ generate_replicas_app wReq2 wCallFail1 wParseNone wGen,
          (∃ r, p.2 = PublicEntry.parsed r)
          ∨ (∃ m raw meta, p.2 = PublicEntry.parseFailed m raw meta)
          ∨ (∃ m meta, p.2 = PublicEntry.apiFailed m meta)) :=
  ⟨by decide, claim_C1 wReq2 wCallFail1 wParseNone wGen (by decide)⟩

theorem runLoopApp_getElem? (req : GenRequest) (call : Nat → Except Str Str)
    (parse : Str → Option RawParsed) (gen : Nat → Str) :
    ∀ (idxs : List Nat) (k ctr i : Nat), idxs[k]? = some i →
      (runLoopApp req call parse gen idxs ctr)[k]?
        = some (replicaKey i,
            (processUnitApp req call parse gen (ctrAt req call parse gen idxs ctr k) i).1) := by
  intro idxs
  induction idxs with
  | nil => intro k ctr i h; simp at h
  | cons j rest ih =>
    intro k ctr i h
    cases k with
    | zero =>
      rw [List.getElem?_cons_zero] at h
      have hji : j = i := by injection h
      subst hji
      simp [runLoopApp, ctrAt]
    | succ k2 =>
      rw [List.getElem?_cons_succ] at h
      have hrec := ih k2 (stepCtr req call parse gen ctr j) i h
      have hshape : runLoopApp req call parse gen (j :: rest) ctr
          = (replicaKey j, (processUnitApp req call parse gen ctr j).1)
            :: runLoopApp req call parse gen rest (stepCtr req call parse gen ctr j) := by
        simp [runLoopApp, stepCtr]
      have hctr : ctrAt req call parse gen (j :: rest) ctr (k2 + 1)
          = ctrAt req call parse gen rest (stepCtr req call parse gen ctr j) k2 := by
        simp [ctrAt, List.take_succ_cons, List.foldl_cons]
      rw [hshape, List.getElem?_cons_succ, hrec, hctr]

/-- Claim C10** (amended).  Failure entries are asymmetric: a unit whose external
invocation raises is recorded (in both modules) with the stringified error —
plus the batch-metadata fields the final pass attaches to every entry — and
NO raw-response snippet, whereas a unit whose response was received but failed
to parse is recorded with an error message PLUS the first 500 characters of
the raw response (and the same metadata fields). -/
theorem claim_C10_amended (req : GenRequest) (call : Nat → Except Str Str)
    (parse : Str → Option RawParsed) (gen : Nat → Str) (k i : Nat)
    (hidx : (idxRange req.num_replicas)[k]? = some i) :
    (∀ e, call i = .error e →
      (generate_replicas_app req call parse gen)[k]?
        = some (replicaKey i, .apiFailed ("API Error: ".toList ++ e) (metaOf req))
      ∧ (generate_replicas_main req call parse)[k]?
        = some (replicaKey i, .apiFailed ("API Error: ".toList ++ e) (metaOf req)))
    ∧ (∀ resp, call i = .ok resp → parse resp = none →
      (generate_replicas_app req call parse gen)[k]?
        = some (replicaKey i,
            .parseFailed ("Failed to parse structured response for replica ".toList ++ natStr i)
              (resp.take 500) (metaOf req))
      ∧ (generate_replicas_main req call parse)[k]?
        = some (replicaKey i,
            .parseFailed ("Failed to parse structured response for replica ".toList ++ natStr i)
              (resp.take 500) (metaOf req))) := by
  have happ : (generate_replicas_app req call parse gen)[k]?
      = some (replicaKey i,
          finalizeEntry req
            (processUnitApp req call parse gen
              (ctrAt req call parse gen (idxRange req.num_replicas) 0 k) i).1) := by
    unfold generate_replicas_app
    rw [List.getElem?_map, runLoopApp_getElem? req call parse gen _ k 0 i hidx]
    rfl
  have hmain : (generate_replicas_main req call parse)[k]?
      = some (replicaKey i, finalizeEntry req (processUnitMain call parse i)) := by
    unfold generate_replicas_main
    rw [List.getElem?_map, List.getElem?_map, hidx]
    rfl
  constructor
  · intro e he
    constructor
    · rw [happ]
      unfold processUnitApp
      rw [he]
      rfl
    · rw [hmain]
      unfold processUnitMain
      rw [he]
      rfl
  · intro resp hok hpn
    constructor
    · rw [happ]
      unfold processUnitApp
      rw [hok]
      simp [hpn, finalizeEntry]
    · rw [hmain]
      unfold processUnitMain
      rw [hok]
      simp [hpn, finalizeEntry]

/-- Claim C10** (counterexample).  At the public interface an invocation-failure
entry does NOT consist of only an error message: the final metadata pass also
attaches the four batch-metadata fields to it — here a non-empty `subtopic`
(`"Algebra"`). -/
theorem claim_C10_counterexample :
    (generate_replicas_app wReq2 wCallErr wParse wGen)[0]?
      = some (replicaKey 1, PublicEntry.apiFailed ("API Error: boom".toList) (metaOf wReq2))
    ∧ (metaOf wReq2).subtopic = "Algebra".toList
    ∧ (metaOf wReq2).subtopic ≠ [] :=
  ⟨by decide, by decide, by decide⟩

/-- Witness for C10: both failure shapes at concrete inputs. -/
theorem claim_C10_witness :
    ((generate_replicas_app wReq2 wCallFail1 wParseNone wGen)[0]?
        = some (replicaKey 1, .apiFailed ("API Error: ".toList ++ "boom".toList) (metaOf wReq2))
      ∧ (generate_replicas_main wReq2 wCallFail1 wParseNone)[0]?
        = some (replicaKey 1, .apiFailed ("API Error: ".toList ++ "boom".toList) (metaOf wReq2)))
    ∧ ((generate_replicas_app wReq2 wCallFail1 wParseNone wGen)[1]?
        = some (replicaKey 2,
            .parseFailed ("Failed to parse structured response for replica ".toList ++ natStr 2)
              (("OK".toList).take 500) (metaOf wReq2))
      ∧ (generate_replicas_main wReq2 wCallFail1 wParseNone)[1]?
        = some (replicaKey 2,
            .parseFailed ("Failed to parse structured response for replica ".toList ++ natStr 2)
              (("OK".toList).take 500) (metaOf wReq2))) :=
  ⟨(claim_C10_amended wReq2 wCallFail1 wParseNone wGen 0 1 (by decide)).1
      ("boom".toList) rfl,
   (claim_C10_amended wReq2 wCallFail1 wParseNone wGen 1 2 (by decide)).2
      ("OK".toList) rfl rfl⟩

/-- Claim C8** (amended).  The tag-derived metadata (`extract_tag_value` over
`SUB_TOPIC_`/`COURSE_`/`MODULE_`/`UNIT_`) is attached to each parsed record
inside the loop, but the batch's final metadata pass OVERWRITES those fields:
every returned parsed record's `subtopic`/`course`/`module`/`unit` equal the
request's top-level fields (`data.get('subtopic', '')` etc., empty when
absent), not the tag-derived values. -/
theorem claim_C8_amended (req : GenRequest) (call : Nat → Except Str Str)
    (parse : Str → Option RawParsed) (gen : Nat → Str) :
    ∀ (k : Nat) (p : Str × PublicEntry),
      (generate_replicas_app req call parse gen)[k]? = some p →
      ∀ r, p.2 = PublicEntry.parsed r →
        r.subtopic = req.subtopic.getD [] ∧ r.course = req.course.getD []
        ∧ r.module = req.module.getD [] ∧ r.unit = req.unit.getD [] := by
  intro k p hk r hr
  unfold generate_replicas_app at hk
  rw [List.getElem?_map] at hk
  cases hq : (runLoopApp req call parse gen (idxRange req.num_replicas) 0)[k]? with
  | none => rw [hq] at hk; exact absurd hk (by simp)
  | some q =>
    rw [hq] at hk
    have hp2 : p.2 = finalizeEntry req q.2 := by
      have hqp : (q.1, finalizeEntry req q.2) = p := by simpa using hk
      rw [← hqp]
    rw [hp2] at hr
    cases hq2 : q.2 with
    | parsed r0 =>
      rw [hq2] at hr
      simp only [finalizeEntry] at hr
      have hr2 : ({ r0 with
          subtopic := req.subtopic.getD []
          course := req.course.getD []
          module := req.module.getD []
          unit := req.unit.getD [] } : ReplicaRecord) = r := by
        injection hr
      rw [← hr2]
      exact ⟨rfl, rfl, rfl, rfl⟩
    | parseFailed a b =>
      rw [hq2] at hr
      exact absurd hr (by simp [finalizeEntry])
    | apiFailed a =>
      rw [hq2] at hr
      exact absurd hr (by simp [finalizeEntry])

/-- Claim C8** (counterexample).  `wReq` carries the tag `SUB_TOPIC_data_analysis`
but no top-level `subtopic` field; the returned record's `subtopic` is the
empty string, not the tag-derived `"Data Analysis"` the claim requires. -/
theorem claim_C8_counterexample :
    wEntry.2 = PublicEntry.parsed wRecord
    ∧ wRecord.subtopic = []
    ∧ extract_tag_value wReq.tag_names ("SUB_TOPIC_".toList) = "Data Analysis".toList
    ∧ wRecord.subtopic ≠ extract_tag_value wReq.tag_names ("SUB_TOPIC_".toList) :=
  ⟨by decide, by decide, by decide, by decide⟩

/-- Witness for C8's amended statement at the concrete batch `wResult`. -/
theorem claim_C8_witness :
    wResult[0]? = some wEntry
    ∧ wEntry.2 = PublicEntry.parsed wRecord
    ∧ (wRecord.subtopic = wReq.subtopic.getD [] ∧ wRecord.course = wReq.course.getD []
      ∧ wRecord.module = wReq.module.getD [] ∧ wRecord.unit = wReq.unit.getD []) :=
  ⟨by decide, by decide,
   claim_C8_amended wReq wCallOk wParse wGen 0 wEntry (by decide) wRecord (by decide)⟩

theorem formatCap_self (origs : List TestCaseIn) :
    formatCap origs (some origs.length) = origs.length := by
  simp only [formatCap]
  rw [if_neg]
  intro hcon
  exact absurd hcon.2 (lt_irrefl _)

theorem format_self_eq (gen : Nat → Str) (start : Nat) (origs : List TestCaseIn) :
    format_test_cases_from_original gen start origs (some origs.length)
      = formatFrom gen start 0 origs := by
  unfold format_test_cases_from_original
  rw [formatCap_self, List.take_length]

theorem formatFrom_length (gen : Nat → Str) (start : Nat) :
    ∀ (l : List TestCaseIn) (j : Nat), (formatFrom gen start j l).length = l.length := by
  intro l
  induction l with
  | nil => intro j; rfl
  | cons t rest ih => intro j; simp [formatFrom, ih]

theorem format_self_length (gen : Nat → Str) (start : Nat) (origs : List TestCaseIn) :
    (format_test_cases_from_original gen start origs (some origs.length)).length
      = origs.length := by
  rw [format_self_eq, formatFrom_length]

theorem formatFrom_getElem? (gen : Nat → Str) (start : Nat) :
    ∀ (l : List TestCaseIn) (j m : Nat),
      (formatFrom gen start j l)[m]?
        = (l[m]?).map (fun t => mkFormattedTestCase gen start (j + m) t) := by
  intro l
  induction l with
  | nil => intro j m; simp [formatFrom]
  | cons t rest ih =>
    intro j m
    cases m with
    | zero => simp [formatFrom]
    | succ m2 =>
      simp only [formatFrom, List.getElem?_cons_succ]
      rw [ih (j + 1) m2]
      have harith : j + 1 + m2 = j + (m2 + 1) := by omega
      rw [harith]

theorem formatFrom_ids (gen : Nat → Str) (start : Nat) :
    ∀ (l : List TestCaseIn) (j : Nat),
      (formatFrom gen start j l).map (fun c => c.id)
        = (List.range l.length).map (fun m => gen (start + j + m)) := by
  intro l
  induction l with
  | nil => intro j; rfl
  | cons t rest ih =>
    intro j
    simp only [formatFrom, List.map_cons, List.length_cons, List.range_succ_eq_map,
      List.map_map]
    have htail : (formatFrom gen start (j + 1) rest).map (fun c => c.id)
        = (List.range rest.length).map ((fun m => gen (start + j + m)) ∘ Nat.succ) := by
      rw [ih (j + 1)]
      refine List.map_congr_left ?_
      intro m _
      simp only [Function.comp_apply]
      congr 1
      omega
    rw [htail]
    rfl

theorem format_self_ids (gen : Nat → Str) (start : Nat) (origs : List TestCaseIn) :
    (format_test_cases_from_original gen start origs (some origs.length)).map (fun c => c.id)
      = (List.range origs.length).map (fun m => gen (start + m)) := by
  rw [format_self_eq, formatFrom_ids]
  refine List.map_congr_left ?_
  intro m _
  rfl

theorem processUnitApp_eq_error (req : GenRequest) (call : Nat → Except Str Str)
    (parse : Str → Option RawParsed) (gen : Nat → Str) (ctr i : Nat) (e : Str)
    (hc : call i = .error e) :
    processUnitApp req call parse gen ctr i
      = (.apiFailed ("API Error: ".toList ++ e), ctr) := by
  unfold processUnitApp
  rw [hc]

theorem processUnitApp_eq_ok_some (req : GenRequest) (call : Nat → Except Str Str)
    (parse : Str → Option RawParsed) (gen : Nat → Str) (ctr i : Nat) (resp : Str)
    (rd : RawParsed) (hc : call i = .ok resp) (hp : parse resp = some rd) :
    processUnitApp req call parse gen ctr i
      = (.parsed (rawToRecordApp rd
            (format_test_cases_from_original gen ctr req.test_cases (some req.test_cases.length))
            req.tag_names),
         ctr + (format_test_cases_from_original gen ctr req.test_cases
            (some req.test_cases.length)).length) := by
  unfold processUnitApp
  rw [hc]
  simp [hp]

theorem processUnitApp_eq_ok_none (req : GenRequest) (call : Nat → Except Str Str)
    (parse : Str → Option RawParsed) (gen : Nat → Str) (ctr i : Nat) (resp : Str)
    (hc : call i = .ok resp) (hp : parse resp = none) :
    processUnitApp req call parse gen ctr i
      = (.parseFailed ("Failed to parse structured response for replica ".toList ++ natStr i)
          (resp.take 500), ctr) := by
  unfold processUnitApp
  rw [hc]
  simp [hp]

theorem stepCtr_ge (req : GenRequest) (call : Nat → Except Str Str)
    (parse : Str → Option RawParsed) (gen : Nat → Str) (ctr i : Nat) :
    ctr ≤ stepCtr req call parse gen ctr i := by
  unfold stepCtr
  cases hc : call i with
  | error e =>
    rw [processUnitApp_eq_error req call parse gen ctr i e hc]
  | ok resp =>
    cases hp : parse resp with
    | some rd =>
      rw [processUnitApp_eq_ok_some req call parse gen ctr i resp rd hc hp]
      simp only []
      omega
    | none =>
      rw [processUnitApp_eq_ok_none req call parse gen ctr i resp hc hp]

theorem foldl_stepCtr_ge (req : GenRequest) (call : Nat → Except Str Str)
    (parse : Str → Option RawParsed) (gen : Nat → Str) :
    ∀ (l : List Nat) (ctr : Nat), ctr ≤ l.foldl (stepCtr req call parse gen) ctr := by
  intro l
  induction l with
  | nil => intro ctr; simp
  | cons i rest ih =>
    intro ctr
    rw [List.foldl_cons]
    exact le_trans (stepCtr_ge req call parse gen ctr i) (ih _)

theorem processUnitApp_parsed_spec (req : GenRequest) (call : Nat → Except Str Str)
    (parse : Str → Option RawParsed) (gen : Nat → Str) (ctr i : Nat) (r : ReplicaRecord)
    (h : (processUnitApp req call parse gen ctr i).1 = LoopEntry.parsed r) :
    (processUnitApp req call parse gen ctr i).2 = ctr + req.test_cases.length
    ∧ copiesOf r
        = format_test_cases_from_original gen ctr req.test_cases
            (some req.test_cases.length) := by
  cases hc : call i with
  | error e =>
    rw [processUnitApp_eq_error req call parse gen ctr i e hc] at h
    exact absurd h (by simp)
  | ok resp =>
    cases hp : parse resp with
    | none =>
      rw [processUnitApp_eq_ok_none req call parse gen ctr i resp hc hp] at h
      exact absurd h (by simp)
    | some rd =>
      rw [processUnitApp_eq_ok_some req call parse gen ctr i resp rd hc hp] at h
      rw [processUnitApp_eq_ok_some req call parse gen ctr i resp rd hc hp]
      have hr : rawToRecordApp rd
          (format_test_cases_from_original gen ctr req.test_cases (some req.test_cases.length))
          req.tag_names = r := by
        injection h
      refine ⟨?_, ?_⟩
      · simp only []
        rw [format_self_length]
      · rw [← hr]
        rfl

theorem ctrAt_mono (req : GenRequest) (call : Nat → Except Str Str)
    (parse : Str → Option RawParsed) (gen : Nat → Str)
    (idxs : List Nat) (ctr : Nat) {k k2 : Nat} (hk : k ≤ k2) :
    ctrAt req call parse gen idxs ctr k ≤ ctrAt req call parse gen idxs ctr k2 := by
  unfold ctrAt
  have hsplit : idxs.take k2 = idxs.take k ++ ((idxs.take k2).drop k) := by
    conv_lhs => rw [← List.take_append_drop k (idxs.take k2)]
    rw [List.take_take, Nat.min_eq_left hk]
  rw [hsplit, List.foldl_append]
  exact foldl_stepCtr_ge req call parse gen _ _

theorem ctrAt_parsed_step (req : GenRequest) (call : Nat → Except Str Str)
    (parse : Str → Option RawParsed) (gen : Nat → Str)
    (idxs : List Nat) (ctr : Nat) {k i : Nat} {r : ReplicaRecord}
    (hik : idxs[k]? = some i)
    (hparsed : (processUnitApp req call parse gen (ctrAt req call parse gen idxs ctr k) i).1
      = LoopEntry.parsed r) :
    ctrAt req call parse gen idxs ctr k + req.test_cases.length
      ≤ ctrAt req call parse gen idxs ctr (k + 1) := by
  have hstep := (processUnitApp_parsed_spec req call parse gen
    (ctrAt req call parse gen idxs ctr k) i r hparsed).1
  have htake : idxs.take (k + 1) = idxs.take k ++ [i] := by
    rw [List.take_succ, hik]
    rfl
  have hrhs : ctrAt req call parse gen idxs ctr (k + 1)
      = stepCtr req call parse gen (ctrAt req call parse gen idxs ctr k) i := by
    unfold ctrAt
    rw [htake, List.foldl_append, List.foldl_cons, List.foldl_nil]
  rw [hrhs]
  unfold stepCtr
  rw [hstep]

/-- Extracts from a parsed public entry the loop-level data: the unit index,
the loop record and its identifier-counter position. -/
theorem generate_app_parsed_extract (req : GenRequest) (call : Nat → Except Str Str)
    (parse : Str → Option RawParsed) (gen : Nat → Str) (k : Nat) (p : Str × PublicEntry)
    (hk : (generate_replicas_app req call parse gen)[k]? = some p)
    (r : ReplicaRecord) (hr : p.2 = PublicEntry.parsed r) :
    ∃ (i : Nat) (r0 : ReplicaRecord),
      (idxRange req.num_replicas)[k]? = some i
      ∧ (processUnitApp req call parse gen
          (ctrAt req call parse gen (idxRange req.num_replicas) 0 k) i).1
          = LoopEntry.parsed r0
      ∧ copiesOf r = copiesOf r0 := by
  have hlen : (runLoopApp req call parse gen (idxRange req.num_replicas) 0).length
      = (idxRange req.num_replicas).length := by
    have hh := congrArg List.length
      (runLoopApp_keys req call parse gen (idxRange req.num_replicas) 0)
    simpa using hh
  unfold generate_replicas_app at hk
  rw [List.getElem?_map] at hk
  cases hq : (runLoopApp req call parse gen (idxRange req.num_replicas) 0)[k]? with
  | none => rw [hq] at hk; exact absurd hk (by simp)
  | some q =>
    rw [hq] at hk
    have hklt : k < (runLoopApp req call parse gen (idxRange req.num_replicas) 0).length := by
      by_contra hge
      rw [List.getElem?_eq_none (by omega)] at hq
      exact absurd hq (by simp)
    have hkidx : k < (idxRange req.num_replicas).length := by omega
    have hik : (idxRange req.num_replicas)[k]? = some ((idxRange req.num_replicas)[k]) :=
      List.getElem?_eq_getElem hkidx
    have hloop := runLoopApp_getElem? req call parse gen (idxRange req.num_replicas) k 0
      ((idxRange req.num_replicas)[k]) hik
    rw [hq] at hloop
    have hqval : q = (replicaKey ((idxRange req.num_replicas)[k]),
        (processUnitApp req call parse gen
          (ctrAt req call parse gen (idxRange req.num_replicas) 0 k)
          ((idxRange req.num_replicas)[k])).1) := by
      injection hloop
    have hp2 : p.2 = finalizeEntry req q.2 := by
      have hqp : (q.1, finalizeEntry req q.2) = p := by simpa using hk
      rw [← hqp]
    rw [hp2] at hr
    cases hq2 : q.2 with
    | parsed r0 =>
      refine ⟨(idxRange req.num_replicas)[k], r0, hik, ?_, ?_⟩
      · have hq2proj : q.2 = (processUnitApp req call parse gen
            (ctrAt req call parse gen (idxRange req.num_replicas) 0 k)
            ((idxRange req.num_replicas)[k])).1 := by
          rw [hqval]
        rw [← hq2proj, hq2]
      · rw [hq2] at hr
        simp only [finalizeEntry] at hr
        have hrr : ({ r0 with
            subtopic := req.subtopic.getD []
            course := req.course.getD []
            module := req.module.getD []
            unit := req.unit.getD [] } : ReplicaRecord) = r := by
          injection hr
        rw [← hrr]
        rfl
    | parseFailed a b =>
      rw [hq2] at hr
      exact absurd hr (by simp [finalizeEntry])
    | apiFailed a =>
      rw [hq2] at hr
      exact absurd hr (by simp [finalizeEntry])

/-- Claim C3** (amended).  For every successfully parsed unit, `test_cases` is
replaced with copies of the ORIGINAL request's test cases — never invented
ones — with the number of copies equal to the NUMBER OF AVAILABLE ORIGINALS
(the orchestrator passes `len(original_test_cases)`, not the requested
replica count, as the cap, app.py 900); each copy gets a freshly drawn
identifier, pairwise distinct within the unit, across all parsed units of the
batch, and distinct from every original identifier (assuming the uuid oracle
never repeats and never collides with an original id, which is `uuid4`'s
contract). -/
theorem claim_C3_amended (req : GenRequest) (call : Nat → Except Str Str)
    (parse : Str → Option RawParsed) (gen : Nat → Str)
    (hinj : Function.Injective gen)
    (havoid : ∀ (n : Nat) (t : TestCaseIn), t ∈ req.test_cases → t.id ≠ some (gen n)) :
    ∀ (k : Nat) (p : Str × PublicEntry),
      (generate_replicas_app req call parse gen)[k]? = some p →
      ∀ r, p.2 = PublicEntry.parsed r →
        (copiesOf r).length = req.test_cases.length
        ∧ ((copiesOf r).map (fun c => c.id)).Nodup
        ∧ (∀ a ∈ (copiesOf r).map (fun c => c.id), ∀ t ∈ req.test_cases, t.id ≠ some a)
        ∧ (∀ (m : Nat) (c2 : FormattedTestCase), (copiesOf r)[m]? = some c2 →
            ∃ t, req.test_cases[m]? = some t
              ∧ c2.display_text = t.display_text.getD []
              ∧ c2.criteria = t.criteria.getD []
              ∧ c2.evaluation_type = t.evaluation_type.getD ("CLIENT_SIDE_EVALUATION".toList)
              ∧ c2.order = t.order.getD (Int.ofNat (m + 1))
              ∧ c2.weightage = t.weightage.getD 10
              ∧ c2.reason_for_failure = t.reason_for_failure)
        ∧ (∀ (k2 : Nat) (p2 : Str × PublicEntry), k2 ≠ k →
            (generate_replicas_app req call parse gen)[k2]? = some p2 →
            ∀ r2, p2.2 = PublicEntry.parsed r2 →
              ∀ a ∈ (copiesOf r).map (fun c => c.id),
                a ∉ (copiesOf r2).map (fun c => c.id)) := by
  intro k p hk r hr
  obtain ⟨i, r0, hik, hpu, hcop⟩ := generate_app_parsed_extract req call parse gen k p hk r hr
  set c := ctrAt req call parse gen (idxRange req.num_replicas) 0 k with hc
  obtain ⟨hctr2, hcop0⟩ := processUnitApp_parsed_spec req call parse gen c i r0 hpu
  have hcopies : copiesOf r
      = format_test_cases_from_original gen c req.test_cases (some req.test_cases.length) :=
    hcop.trans hcop0
  have hids : (copiesOf r).map (fun x => x.id)
      = (List.range req.test_cases.length).map (fun m => gen (c + m)) := by
    rw [hcopies, format_self_ids]
  refine ⟨?_, ?_, ?_, ?_, ?_⟩
  · rw [hcopies, format_self_length]
  · rw [hids]
    refine List.Nodup.map ?_ (List.nodup_range _)
    intro a b hab
    have hinjab := hinj hab
    omega
  · intro a ha t ht
    rw [hids] at ha
    obtain ⟨m, hm, hma⟩ := List.mem_map.1 ha
    rw [← hma]
    exact fun hcon => havoid (c + m) t ht hcon
  · intro m c2 hm
    rw [hcopies, format_self_eq, formatFrom_getElem?] at hm
    cases hts : req.test_cases[m]? with
    | none => rw [hts] at hm; exact absurd hm (by simp)
    | some t =>
      rw [hts] at hm
      have hmk : mkFormattedTestCase gen c (0 + m) t = c2 := by
        simpa using hm
      have hzero : 0 + m = m := Nat.zero_add m
      rw [hzero] at hmk
      rw [← hmk]
      exact ⟨t, rfl, rfl, rfl, rfl, rfl, rfl, rfl⟩
  · intro k2 p2 hne hk2 r2 hr2 a ha ha2
    obtain ⟨i2, r02, hik2, hpu2, hcop2⟩ :=
      generate_app_parsed_extract req call parse gen k2 p2 hk2 r2 hr2
    set d := ctrAt req call parse gen (idxRange req.num_replicas) 0 k2 with hd
    obtain ⟨hctr22, hcop02⟩ := processUnitApp_parsed_spec req call parse gen d i2 r02 hpu2
    have hids2 : (copiesOf r2).map (fun x => x.id)
        = (List.range req.test_cases.length).map (fun m => gen (d + m)) := by
      rw [hcop2.trans hcop02, format_self_ids]
    rw [hids] at ha
    rw [hids2] at ha2
    obtain ⟨m1, hm1, hma1⟩ := List.mem_map.1 ha
    obtain ⟨m2, hm2, hma2⟩ := List.mem_map.1 ha2
    have hmm : gen (c + m1) = gen (d + m2) := by rw [hma1, hma2]
    have heq : c + m1 = d + m2 := hinj hmm
    have hm1lt : m1 < req.test_cases.length := List.mem_range.1 hm1
    have hm2lt : m2 < req.test_cases.length := List.mem_range.1 hm2
    rcases Nat.lt_or_ge k k2 with hlt | hge
    · have hstep := ctrAt_parsed_step req call parse gen (idxRange req.num_replicas) 0 hik hpu
      have hmono := ctrAt_mono req call parse gen (idxRange req.num_replicas) 0
        (show k + 1 ≤ k2 by omega)
      omega
    · have hlt2 : k2 < k := by omega
      have hstep := ctrAt_parsed_step req call parse gen (idxRange req.num_replicas) 0 hik2 hpu2
      have hmono := ctrAt_mono req call parse gen (idxRange req.num_replicas) 0
        (show k2 + 1 ≤ k by omega)
      omega

/-- Claim C3** (counterexample).  `wReq` requests ONE replica but carries TWO
original test cases; the parsed unit embeds TWO copies, exceeding the claimed
cap `min(num_replicas, len(originals)) = 1`. -/
theorem claim_C3_counterexample :
    wEntry.2 = PublicEntry.parsed wRecord
    ∧ (copiesOf wRecord).length = 2
    ∧ wReq.num_replicas = 1
    ∧ wReq.test_cases.length = 2
    ∧ (copiesOf wRecord).length ≠ Nat.min wReq.num_replicas wReq.test_cases.length :=
  ⟨by decide, by decide, by decide, by decide, by decide⟩

theorem wGen_injective : Function.Injective wGen := by
  intro a b hab
  have hlen := congrArg List.length hab
  simpa [wGen] using hlen

theorem wGen_avoid :
    ∀ (n : Nat) (t : TestCaseIn), t ∈ wReq.test_cases → t.id ≠ some (wGen n) := by
  intro n t ht hid
  have hcases : t = wTc1 ∨ t = wTc2 := by simpa [wReq] using ht
  have hrep : wGen n = 'u' :: List.replicate n 'u' := rfl
  rcases hcases with h1 | h2
  · rw [h1] at hid
    have hx : some ['x'] = some (wGen n) := hid
    have hx2 : ['x'] = wGen n := by injection hx
    rw [hrep] at hx2
    have hhead : 'x' = 'u' := by injection hx2
    exact absurd hhead (by decide)
  · rw [h2] at hid
    have hx : some ['y'] = some (wGen n) := hid
    have hx2 : ['y'] = wGen n := by injection hx
    rw [hrep] at hx2
    have hhead : 'y' = 'u' := by injection hx2
    exact absurd hhead (by decide)

/-- Witness for C3's amended statement at the concrete batch `wResult`. -/
theorem claim_C3_witness :
    Function.Injective wGen
    ∧ (∀ (n : Nat) (t : TestCaseIn), t ∈ wReq.test_cases → t.id ≠ some (wGen n))
    ∧ wResult[0]? = some wEntry
    ∧ wEntry.2 = PublicEntry.parsed wRecord
    ∧ ((copiesOf wRecord).length = wReq.test_cases.length
      ∧ ((copiesOf wRecord).map (fun c => c.id)).Nodup
      ∧ (∀ a ∈ (copiesOf wRecord).map (fun c => c.id),
          ∀ t ∈ wReq.test_cases, t.id ≠ some a)
      ∧ (∀ (m : Nat) (c2 : FormattedTestCase), (copiesOf wRecord)[m]? = some c2 →
          ∃ t, wReq.test_cases[m]? = some t
            ∧ c2.display_text = t.display_text.getD []
            ∧ c2.criteria = t.criteria.getD []
            ∧ c2.evaluation_type = t.evaluation_type.getD ("CLIENT_SIDE_EVALUATION".toList)
            ∧ c2.order = t.order.getD (Int.ofNat (m + 1))
            ∧ c2.weightage = t.weightage.getD 10
            ∧ c2.reason_for_failure = t.reason_for_failure)
      ∧ (∀ (k2 : Nat) (p2 : Str × PublicEntry), k2 ≠ 0 →
          (generate_replicas_app wReq wCallOk wParse wGen)[k2]? = some p2 →
          ∀ r2, p2.2 = PublicEntry.parsed r2 →
            ∀ a ∈ (copiesOf wRecord).map (fun c => c.id),
              a ∉ (copiesOf r2).map (fun c => c.id))) :=
  ⟨wGen_injective, wGen_avoid, by decide, by decide,
   claim_C3_amended wReq wCallOk wParse wGen wGen_injective wGen_avoid 0 wEntry (by decide)
     wRecord (by decide)⟩

end WebReplicas
